import Mathlib

/-!
# moderngl: the resource factory of `src/Context.cpp`

A shallow embedding of the creation and transfer operations of `MGLContext`
(`copy_buffer`, `copy_framebuffer`, `buffer`, `texture`, `depth_texture`,
`renderbuffer`, `depth_renderbuffer`, `framebuffer`, `vertex_array`, `program`)
together with the proofs of the properties the specification states about them.

Conventions of the embedding.

* A C `int` is an `Int`; every `+`, `-` and `*` the source performs on `int`s is
  followed by `int32`, the two's-complement wrap to 32 bits, and `/` is the
  truncating `Int.tdiv`.  Arguments parsed with the `I` format of
  `PyArg_ParseTuple` are the `int` variables the parser fills (an unsigned
  argument of `2^31` or more is stored as a negative `int`).
* The driver is a log: every operation returns, next to its result, the list of
  `gl.*` calls it issued, in order.  What the driver hands back (generated
  handles, the current framebuffer binding, the completeness status) is an
  argument of the operation.
* `MGLError_Set(...); return 0;` is `Result.error e`, one constructor of
  `MGLError` per message of the source.  The arguments of an operation are the
  variables `PyArg_ParseTuple` has filled; `depth_texture`, whose format has one
  unit less than the signature, is also modelled on the arguments of the caller.
* A Python string read as `const char *` is cut at its first NUL (`c_str`).
* Object identity of a context is a natural number (`MGLContext.id`).
-/

namespace MGL

/-! ## Machine integers -/

/-- The value of a 32-bit two's-complement pattern: the wrap of `x` into the range of `int`. -/
def int32 (x : Int) : Int := (x + 2147483648) % 4294967296 - 2147483648

/-- The values an `int` holds. -/
def isInt32 (x : Int) : Prop := -2147483648 ≤ x ∧ x < 2147483648

instance (x : Int) : Decidable (isInt32 x) := by unfold isInt32; infer_instance

/-! ## Errors and results -/

/-- One constructor per `MGLError_Set` message of the modelled functions; the arguments are the
values substituted in the message.  The last constructor is the error `PyArg_ParseTuple` sets
when it refuses the arguments of `depth_texture`. -/
inductive MGLError where
  /-- Message "buffer underflow" -/
  | buffer_underflow
  /-- Message "buffer overflow" -/
  | buffer_overflow
  /-- Message "data and reserve are mutually exclusive" -/
  | data_and_reserve_mutually_exclusive
  /-- Message "data (%s) does not support buffer interface" -/
  | no_buffer_interface (tp_name : String)
  /-- Message "the buffer cannot be empty" -/
  | buffer_cannot_be_empty
  /-- Message "cannot create buffer" -/
  | cannot_create_buffer
  /-- Message "the components must be 1, 2, 3 or 4" -/
  | invalid_components
  /-- Message "the number of samples is invalid" -/
  | invalid_samples
  /-- Message "the alignment must be 1, 2, 4 or 8" -/
  | invalid_alignment
  /-- Message "multisample textures are not writable directly" -/
  | multisample_not_writable
  /-- Message "data size mismatch %d != %d" -/
  | data_size_mismatch (len expected_size : Int)
  /-- Message "cannot create texture" -/
  | cannot_create_texture
  /-- Message "cannot create renderbuffer" -/
  | cannot_create_renderbuffer
  /-- Message "the color_attachments must not be empty" -/
  | color_attachments_empty
  /-- Message "color_attachments[%d] must be a Renderbuffer or Texture not %s" -/
  | color_attachment_type (i : Int) (tp_name : String)
  /-- Message "the color_attachments have different sizes or samples" -/
  | color_attachments_different
  /-- Message "color_attachments[%d] belongs to a different context" -/
  | color_attachment_context (i : Int)
  /-- Message "the depth_attachment must be a Renderbuffer or Texture not %s" -/
  | depth_attachment_type (tp_name : String)
  /-- Message "the depth_attachment belongs to a different context" -/
  | depth_attachment_context
  /-- Message "the depth_attachment have different sizes or samples" -/
  | depth_attachment_different
  /-- Message "cannot create framebuffer" -/
  | cannot_create_framebuffer
  /-- Message "the framebuffer is not complete", with the suffix chosen by the status -/
  | framebuffer_not_complete (message : String)
  /-- Message "the program belongs to a different context" -/
  | program_context
  /-- Message "the index_buffer belongs to a different context" -/
  | index_buffer_context
  /-- Message "the content must not be emtpy" -/
  | content_empty
  /-- Message "content[%d][0] must be a Buffer not %s" -/
  | content_buffer_type (i : Int) (tp_name : String)
  /-- Message "content[%d][1] must be a string not %s" -/
  | content_format_type (i : Int) (tp_name : String)
  /-- Message "content[%d][0] belongs to a different context" -/
  | content_buffer_context (i : Int)
  /-- Message "content[%d][1] is an invalid format" -/
  | content_invalid_format (i : Int)
  /-- Message "the first vertex attribute must not be a per instance attribute" -/
  | first_attribute_per_instance
  /-- Message "content[%d][2] must not be empty" -/
  | content_attributes_empty (i : Int)
  /-- Message "content[%d][1] and content[%d][2] size mismatch %d != %d" -/
  | content_size_mismatch (i : Int) (nodes attributes_len : Int)
  /-- Message "content[%d][2][%d] must be a string not %s" -/
  | content_attribute_type (i j : Int) (tp_name : String)
  /-- Message "%s is not a valid attribute" -/
  | not_a_valid_attribute (name : String)
  /-- Message "%s size is %d not %d" -/
  | attribute_size (name : String) (scalars count : Int)
  /-- Message "%s shape is (%c) not (%c)" -/
  | attribute_shape (name : String) (attribute_shape node_shape : Char)
  /-- Message "the index_buffer must be a Buffer not %s" -/
  | index_buffer_type (tp_name : String)
  /-- Message "cannot create vertex array" -/
  | cannot_create_vertex_array
  /-- Message "varyings[%d] must be a string not %s" -/
  | varyings_type (i : Int) (tp_name : String)
  /-- Message "shaders[%d] must be a Shader not %s" -/
  | shaders_type (i : Int) (tp_name : String)
  /-- Message "shaders[%d] belongs to a different context" -/
  | shaders_context (i : Int)
  /-- Message "duplicate %s", the name being `SHADER_NAME[shader_slot]` -/
  | duplicate_shader (shader_slot : Nat)
  /-- The error `MGLProgram_Compile` leaves set when compiling or linking fails -/
  | program_compile_error (message : String)
  /-- Message "the dst must be a Framebuffer or Texture" -/
  | dst_type
  /-- The `TypeError` that `PyArg_ParseTuple` sets for a tuple whose length is not the number of
  units of the format: "function takes exactly %d arguments (%d given)" -/
  | arguments_count (expected given : Nat)
  deriving DecidableEq, Repr

/-- What a call produces: the object it returns, the error it sets before returning 0, or
`undefined` where the source leaves the behaviour open (a division by zero, a read past the end
of a format). -/
inductive Result (α : Type) where
  | ok (value : α)
  | error (e : MGLError)
  | undefined
  deriving DecidableEq, Repr

/-! ## The driver -/

/-- The driver constants the modelled functions pass. -/
inductive GLenum where
  | GL_COPY_READ_BUFFER | GL_COPY_WRITE_BUFFER | GL_ARRAY_BUFFER | GL_ELEMENT_ARRAY_BUFFER
  | GL_DYNAMIC_DRAW | GL_STATIC_DRAW
  | GL_TEXTURE_2D | GL_TEXTURE_2D_MULTISAMPLE
  | GL_TEXTURE_MIN_FILTER | GL_TEXTURE_MAG_FILTER | GL_LINEAR
  | GL_PACK_ALIGNMENT
  | GL_FLOAT | GL_UNSIGNED_BYTE
  | GL_ZERO | GL_RED | GL_RG | GL_RGB | GL_RGBA
  | GL_R8UI | GL_RG8UI | GL_RGB8UI | GL_RGBA8UI
  | GL_R32F | GL_RG32F | GL_RGB32F | GL_RGBA32F
  | GL_DEPTH_COMPONENT24 | GL_DEPTH_COMPONENT
  | GL_RENDERBUFFER | GL_FRAMEBUFFER | GL_FRAMEBUFFER_BINDING | GL_DEPTH_ATTACHMENT
  | GL_READ_FRAMEBUFFER | GL_DRAW_FRAMEBUFFER | GL_NEAREST
  deriving DecidableEq, Repr

/-- The driver calls the modelled functions issue, with their arguments in source order.  A data
pointer is recorded as `true` when it points to the caller's bytes and `false` when it is null;
`GL_TEXTURE0 + n` and `GL_COLOR_ATTACHMENT0 + n` are recorded as `n`, and the mask of
`gl.BlitFramebuffer` as the two bits the source can set. -/
inductive GLCall where
  | BindBuffer (target : GLenum) (buffer_obj : Int)
  | CopyBufferSubData (read_target write_target : GLenum) (read_offset write_offset size : Int)
  | GenBuffers
  | BufferData (target : GLenum) (size : Int) (buf : Bool) (usage : GLenum)
  | ActiveTexture (unit : Int)
  | GenTextures
  | BindTexture (target : GLenum) (texture_obj : Int)
  | TexParameteri (target pname param : GLenum)
  | TexImage2DMultisample (target : GLenum) (samples : Int) (internalformat : GLenum)
      (width height : Int) (fixedsamplelocations : Bool)
  | PixelStorei (pname : GLenum) (param : Int)
  | TexImage2D (target : GLenum) (level : Int) (internalformat : GLenum) (width height : Int)
      (border : Int) (format type : GLenum) (buf : Bool)
  | GenRenderbuffers
  | BindRenderbuffer (target : GLenum) (renderbuffer_obj : Int)
  | RenderbufferStorage (target internalformat : GLenum) (width height : Int)
  | RenderbufferStorageMultisample (target : GLenum) (samples : Int) (internalformat : GLenum)
      (width height : Int)
  | GetIntegerv (pname : GLenum)
  | GenFramebuffers
  | BindFramebuffer (target : GLenum) (framebuffer_obj : Int)
  | FramebufferTexture2D (target : GLenum) (color_attachment : Option Int) (textarget : GLenum)
      (texture_obj : Int) (level : Int)
  | FramebufferRenderbuffer (target : GLenum) (color_attachment : Option Int)
      (renderbuffertarget : GLenum) (renderbuffer_obj : Int)
  | CheckFramebufferStatus (target : GLenum)
  | GenVertexArrays
  | BindVertexArray (vertex_array_obj : Int)
  | UseProgram (program_obj : Int)
  | VertexAttribPointer (normalizable : Bool) (location row_length scalar_type stride ptr : Int)
  | VertexAttribDivisor (location divisor : Int)
  | EnableVertexAttribArray (location : Int)
  | BlitFramebuffer (srcX0 srcY0 srcX1 srcY1 dstX0 dstY0 dstX1 dstY1 : Int)
      (color_buffer_bit depth_buffer_bit : Bool) (filter : GLenum)
  | CopyTexImage2D (target : GLenum) (level : Int) (internalformat : GLenum)
      (x y width height border : Int)
  deriving DecidableEq, Repr

/-- The result of a call and the driver calls it issued. -/
structure Outcome (α : Type) where
  result : Result α
  gl : List GLCall
  deriving DecidableEq, Repr

/-! ## Objects -/

/-- The fields of `MGLContext` the modelled functions read: the identity of the object and the
default texture unit. -/
structure MGLContext where
  id : Nat
  default_texture_unit : Int
  deriving DecidableEq, Repr

/-- The fields of `MGLBuffer`; `context` is the identity of the owning context. -/
structure MGLBuffer where
  buffer_obj : Int
  size : Int
  dynamic : Bool
  context : Nat
  deriving DecidableEq, Repr

/-- The `data` argument of `buffer`: `None`, an object exporting `len` bytes through the buffer
interface, or an object of type `tp_name` that has no buffer interface. -/
inductive PyData where
  | None
  | bytes (len : Nat)
  | unsupported (tp_name : String)
  deriving DecidableEq, Repr

/-! ## copy_buffer -/

/-- The function `MGLContext_copy_buffer`, lines 161-206. -/
def MGLContext_copy_buffer (dst src : MGLBuffer) (size read_offset write_offset : Int) :
    Outcome Unit :=
  let size := if size < 0 then int32 (src.size - read_offset) else size
  if read_offset < 0 ∨ write_offset < 0 then
    ⟨.error .buffer_underflow, []⟩
  else if int32 (read_offset + size) > src.size ∨ int32 (write_offset + size) > dst.size then
    ⟨.error .buffer_overflow, []⟩
  else
    ⟨.ok (),
      [.BindBuffer .GL_COPY_READ_BUFFER src.buffer_obj,
       .BindBuffer .GL_COPY_WRITE_BUFFER dst.buffer_obj,
       .CopyBufferSubData .GL_COPY_READ_BUFFER .GL_COPY_WRITE_BUFFER
          read_offset write_offset size]⟩

/-! ## buffer -/

/-- The function `MGLContext_buffer`, lines 274-345.  `buffer_obj` is the handle `gl.GenBuffers`
writes. -/
def MGLContext_buffer (self : MGLContext) (data : PyData) (reserve : Int) (dynamic : Bool)
    (buffer_obj : Int) : Outcome MGLBuffer :=
  if (data ≠ .None ∧ reserve ≠ 0) ∨ (data = .None ∧ reserve = 0) then
    ⟨.error .data_and_reserve_mutually_exclusive, []⟩
  else
    match data with
    | .unsupported tp_name => ⟨.error (.no_buffer_interface tp_name), []⟩
    | _ =>
      let len : Int := match data with
        | .bytes n => n
        | _ => reserve
      if len = 0 then
        ⟨.error .buffer_cannot_be_empty, []⟩
      else
        let size := int32 len
        if buffer_obj = 0 then
          ⟨.error .cannot_create_buffer, [.GenBuffers]⟩
        else
          ⟨.ok { buffer_obj := buffer_obj, size := size, dynamic := dynamic, context := self.id },
            [.GenBuffers,
             .BindBuffer .GL_ARRAY_BUFFER buffer_obj,
             .BufferData .GL_ARRAY_BUFFER size (data ≠ .None)
                (if dynamic then .GL_DYNAMIC_DRAW else .GL_STATIC_DRAW)]⟩

/-! ## Textures and renderbuffers -/

/-- The fields of `MGLTexture`. -/
structure MGLTexture where
  texture_obj : Int
  width : Int
  height : Int
  components : Int
  samples : Int
  floats : Bool
  depth : Bool
  context : Nat
  deriving DecidableEq, Repr

/-- The fields of `MGLRenderbuffer`. -/
structure MGLRenderbuffer where
  renderbuffer_obj : Int
  width : Int
  height : Int
  components : Int
  samples : Int
  floats : Bool
  depth : Bool
  context : Nat
  deriving DecidableEq, Repr

/-- The test `samples & (samples - 1)` of `texture`, `depth_texture`, `renderbuffer` and
`depth_renderbuffer`: `true` when the expression is non-zero, that is when the sample count is
refused. -/
def samples_invalid (samples : Int) : Bool :=
  Int.land samples (int32 (samples - 1)) ≠ 0

/-- The second and third assignment to `expected_size`, lines 396-397 of `MGLContext_texture` and
500-501 of `MGLContext_depth_texture`: the row is rounded up to the alignment and multiplied by
the height. -/
def aligned_size (expected_size alignment height : Int) : Int :=
  let expected_size :=
    int32 (Int.tdiv (int32 (int32 (expected_size + alignment) - 1)) alignment * alignment)
  int32 (expected_size * height)

/-- The value of `expected_size` in `MGLContext_texture`, lines 395-397. -/
def texture_expected_size (width height components alignment : Int) (floats : Bool) : Int :=
  let expected_size := int32 (int32 (width * components) * (if floats then 4 else 1))
  aligned_size expected_size alignment height

/-- The table `formats` of `MGLContext_texture`, read at an index the components check keeps
in 1..4. -/
def formats (components : Int) : GLenum :=
  if components = 1 then .GL_RED
  else if components = 2 then .GL_RG
  else if components = 3 then .GL_RGB
  else if components = 4 then .GL_RGBA
  else .GL_ZERO

/-- The table `int_formats` of `MGLContext_renderbuffer`. -/
def int_formats (components : Int) : GLenum :=
  if components = 1 then .GL_R8UI
  else if components = 2 then .GL_RG8UI
  else if components = 3 then .GL_RGB8UI
  else if components = 4 then .GL_RGBA8UI
  else .GL_ZERO

/-- The table `float_formats` of `MGLContext_renderbuffer`. -/
def float_formats (components : Int) : GLenum :=
  if components = 1 then .GL_R32F
  else if components = 2 then .GL_RG32F
  else if components = 3 then .GL_RGB32F
  else if components = 4 then .GL_RGBA32F
  else .GL_ZERO

/-- The function `MGLContext_texture`, lines 347-464.  `texture_obj` is the handle
`gl.GenTextures` writes.
The source does not test what `PyObject_GetBuffer` returns, so `data` without a buffer interface
leaves `buffer_view` unset: `undefined`. -/
def MGLContext_texture (self : MGLContext) (width height components : Int) (data : PyData)
    (samples alignment : Int) (floats : Bool) (texture_obj : Int) : Outcome MGLTexture :=
  if components < 1 ∨ components > 4 then
    ⟨.error .invalid_components, []⟩
  else if samples_invalid samples then
    ⟨.error .invalid_samples, []⟩
  else if alignment ≠ 1 ∧ alignment ≠ 2 ∧ alignment ≠ 4 ∧ alignment ≠ 8 then
    ⟨.error .invalid_alignment, []⟩
  else if data ≠ .None ∧ samples ≠ 0 then
    ⟨.error .multisample_not_writable, []⟩
  else
    let expected_size := texture_expected_size width height components alignment floats
    match data with
    | .unsupported _ => ⟨.undefined, []⟩
    | _ =>
      let len : Int := match data with
        | .bytes n => n
        | _ => expected_size
      if len ≠ expected_size then
        ⟨.error (.data_size_mismatch len expected_size), []⟩
      else
        let texture_target : GLenum :=
          if samples ≠ 0 then .GL_TEXTURE_2D_MULTISAMPLE else .GL_TEXTURE_2D
        let pixel_type : GLenum := if floats then .GL_FLOAT else .GL_UNSIGNED_BYTE
        let format := formats components
        if texture_obj = 0 then
          ⟨.error .cannot_create_texture,
            [.ActiveTexture self.default_texture_unit, .GenTextures]⟩
        else
          ⟨.ok { texture_obj := texture_obj, width := width, height := height,
                 components := components, samples := samples, floats := floats, depth := false,
                 context := self.id },
            [.ActiveTexture self.default_texture_unit, .GenTextures,
             .BindTexture texture_target texture_obj,
             .TexParameteri texture_target .GL_TEXTURE_MIN_FILTER .GL_LINEAR,
             .TexParameteri texture_target .GL_TEXTURE_MAG_FILTER .GL_LINEAR] ++
            (if samples ≠ 0 then
              [.TexImage2DMultisample texture_target samples format width height true]
             else
              [.PixelStorei .GL_PACK_ALIGNMENT alignment,
               .TexImage2D texture_target 0 format width height 0 format pixel_type
                  (data ≠ .None)])⟩

/-- The body of `MGLContext_depth_texture` after the arguments are parsed, lines 489-565.
`width`, `height`, `data` and `samples` are what `PyArg_ParseTuple` has filled.  `alignment` is
not an argument of the caller: the format "(II)OI" of line 477 has no unit for it, so the fifth
pointer is never written and `alignment` stands for whatever the local of line 473 holds when
line 500 reads it.  No statement tests it, and the value 0 reaches the division: `undefined`.
The call as the caller makes it is `MGLContext_depth_texture_call`. -/
def MGLContext_depth_texture (self : MGLContext) (width height : Int) (data : PyData)
    (samples alignment : Int) (texture_obj : Int) : Outcome MGLTexture :=
  if samples_invalid samples then
    ⟨.error .invalid_samples, []⟩
  else if data ≠ .None ∧ samples ≠ 0 then
    ⟨.error .multisample_not_writable, []⟩
  else if alignment = 0 then
    ⟨.undefined, []⟩
  else
    let expected_size := aligned_size (int32 (width * 4)) alignment height
    match data with
    | .unsupported _ => ⟨.undefined, []⟩
    | _ =>
      let len : Int := match data with
        | .bytes n => n
        | _ => expected_size
      if len ≠ expected_size then
        ⟨.error (.data_size_mismatch len expected_size), []⟩
      else
        let texture_target : GLenum :=
          if samples ≠ 0 then .GL_TEXTURE_2D_MULTISAMPLE else .GL_TEXTURE_2D
        let pixel_type : GLenum := .GL_FLOAT
        if texture_obj = 0 then
          ⟨.error .cannot_create_texture,
            [.ActiveTexture self.default_texture_unit, .GenTextures]⟩
        else
          ⟨.ok { texture_obj := texture_obj, width := width, height := height,
                 components := 1, samples := samples, floats := true, depth := true,
                 context := self.id },
            [.ActiveTexture self.default_texture_unit, .GenTextures,
             .BindTexture texture_target texture_obj,
             .TexParameteri texture_target .GL_TEXTURE_MIN_FILTER .GL_LINEAR,
             .TexParameteri texture_target .GL_TEXTURE_MAG_FILTER .GL_LINEAR] ++
            (if samples ≠ 0 then
              [.TexImage2DMultisample texture_target samples .GL_DEPTH_COMPONENT24 width height
                  true]
             else
              [.TexImage2D texture_target 0 .GL_DEPTH_COMPONENT24 width height 0
                  .GL_DEPTH_COMPONENT pixel_type (data ≠ .None)])⟩

/-- The function `MGLContext_depth_texture`, lines 466-565, on the arguments of the caller: the
size, the data, the sample count and, for a caller that follows the signature
`depth_texture(size, data, samples, alignment)`, a fourth argument `alignment_arg`.  The format
"(II)OI" of line 477 takes exactly three arguments: with a fourth, `PyArg_ParseTuple` sets a
`TypeError` and lines 485-487 return 0 before any test of the body.  With three, the body runs on
`alignment`, the content of the local no statement assigns. -/
def MGLContext_depth_texture_call (self : MGLContext) (width height : Int) (data : PyData)
    (samples : Int) (alignment_arg : Option Int) (alignment : Int) (texture_obj : Int) :
    Outcome MGLTexture :=
  match alignment_arg with
  | some _ => ⟨.error (.arguments_count 3 4), []⟩
  | none => MGLContext_depth_texture self width height data samples alignment texture_obj

/-- The allocation of storage shared by `renderbuffer`, `depth_renderbuffer` and the synthesized
depth attachment of `framebuffer`: `gl.RenderbufferStorage` for `samples == 0`,
`gl.RenderbufferStorageMultisample` otherwise. -/
def renderbuffer_storage (samples : Int) (format : GLenum) (width height : Int) : GLCall :=
  if samples = 0 then .RenderbufferStorage .GL_RENDERBUFFER format width height
  else .RenderbufferStorageMultisample .GL_RENDERBUFFER samples format width height

/-- The function `MGLContext_renderbuffer`, lines 1131-1202.  `renderbuffer_obj` is the handle
`gl.GenRenderbuffers` writes. -/
def MGLContext_renderbuffer (self : MGLContext) (width height components samples : Int)
    (floats : Bool) (renderbuffer_obj : Int) : Outcome MGLRenderbuffer :=
  if components < 1 ∨ components > 4 then
    ⟨.error .invalid_components, []⟩
  else if samples_invalid samples then
    ⟨.error .invalid_samples, []⟩
  else
    let format := if floats then float_formats components else int_formats components
    if renderbuffer_obj = 0 then
      ⟨.error .cannot_create_renderbuffer, [.GenRenderbuffers]⟩
    else
      ⟨.ok { renderbuffer_obj := renderbuffer_obj, width := width, height := height,
             components := components, samples := samples, floats := floats, depth := false,
             context := self.id },
        [.GenRenderbuffers, .BindRenderbuffer .GL_RENDERBUFFER renderbuffer_obj,
         renderbuffer_storage samples format width height]⟩

/-- The function `MGLContext_depth_renderbuffer`, lines 1204-1260. -/
def MGLContext_depth_renderbuffer (self : MGLContext) (width height samples : Int)
    (renderbuffer_obj : Int) : Outcome MGLRenderbuffer :=
  if samples_invalid samples then
    ⟨.error .invalid_samples, []⟩
  else if renderbuffer_obj = 0 then
    ⟨.error .cannot_create_renderbuffer, [.GenRenderbuffers]⟩
  else
    ⟨.ok { renderbuffer_obj := renderbuffer_obj, width := width, height := height,
           components := 1, samples := samples, floats := true, depth := true,
           context := self.id },
      [.GenRenderbuffers, .BindRenderbuffer .GL_RENDERBUFFER renderbuffer_obj,
       renderbuffer_storage samples .GL_DEPTH_COMPONENT24 width height]⟩

/-! ## Python objects -/

/-- The objects the modelled functions receive where the source takes a `PyObject *`: `None`,
a `str`, one of the extension types, or an object of another type, known by its `tp_name`
(`context_word` is what the source reads when it takes the `context` field of such an object
through a cast to `MGLBuffer *`). -/
inductive PyObject where
  | None
  | Unicode (s : String)
  | Buffer (b : MGLBuffer)
  | Texture (t : MGLTexture)
  | Renderbuffer (r : MGLRenderbuffer)
  | Other (tp_name : String) (context_word : Nat)
  deriving DecidableEq, Repr

/-- The string `Py_TYPE(o)->tp_name`.  The names of the extension types are set where the types are
defined, outside `Context.cpp`; they only appear in messages. -/
def PyObject.tp_name : PyObject → String
  | .None => "NoneType"
  | .Unicode _ => "str"
  | .Buffer _ => "Buffer"
  | .Texture _ => "Texture"
  | .Renderbuffer _ => "Renderbuffer"
  | .Other n _ => n

/-! ## framebuffer -/

/-- The view `MGLFramebufferAttachment` of a texture or a renderbuffer: the fields the two
types share. -/
structure MGLFramebufferAttachment where
  width : Int
  height : Int
  samples : Int
  context : Nat
  deriving DecidableEq, Repr

/-- The cast `(MGLFramebufferAttachment *)item`, defined for the two types the source lets
through (`Py_TYPE(item) != &MGLTexture_Type && Py_TYPE(item) != &MGLRenderbuffer_Type` is the
`none` case). -/
def PyObject.attachment : PyObject → Option MGLFramebufferAttachment
  | .Texture t => some ⟨t.width, t.height, t.samples, t.context⟩
  | .Renderbuffer r => some ⟨r.width, r.height, r.samples, r.context⟩
  | _ => none

/-- The fields of `MGLFramebuffer`. -/
structure MGLFramebuffer where
  framebuffer_obj : Int
  color_attachments : List PyObject
  depth_attachment : PyObject
  width : Int
  height : Int
  samples : Int
  context : Nat
  deriving DecidableEq, Repr

/-- The loop over `color_attachments`, lines 922-947, from index `i` on, with the reference
`(width, height, samples)` read so far; it returns the reference. -/
def check_color_attachments (self : MGLContext) :
    Nat → Int × Int × Int → List PyObject → Result (Int × Int × Int)
  | _, ref, [] => .ok ref
  | i, (width, height, samples), item :: rest =>
    match item.attachment with
    | none => .error (.color_attachment_type i item.tp_name)
    | some attachment =>
      if i ≠ 0 ∧ (attachment.width ≠ width ∨ attachment.height ≠ height ∨
          attachment.samples ≠ samples) then
        .error .color_attachments_different
      else if attachment.context ≠ self.id then
        .error (.color_attachment_context i)
      else
        check_color_attachments self (i + 1)
          (if i = 0 then (attachment.width, attachment.height, attachment.samples)
           else (width, height, samples)) rest

/-- The call that attaches `item` to the bound framebuffer, lines 1025-1047 and 1050-1070:
`color_attachment` is `some i` for `GL_COLOR_ATTACHMENT0 + i` and `none` for
`GL_DEPTH_ATTACHMENT`.  An object of another type attaches nothing. -/
def attach (color_attachment : Option Int) : PyObject → List GLCall
  | .Texture texture =>
    [.FramebufferTexture2D .GL_FRAMEBUFFER color_attachment
      (if texture.samples ≠ 0 then .GL_TEXTURE_2D_MULTISAMPLE else .GL_TEXTURE_2D)
      texture.texture_obj 0]
  | .Renderbuffer renderbuffer =>
    [.FramebufferRenderbuffer .GL_FRAMEBUFFER color_attachment .GL_RENDERBUFFER
      renderbuffer.renderbuffer_obj]
  | _ => []

/-- The loop that attaches the color attachments, lines 1022-1048, from index `i` on. -/
def attach_color_attachments : Nat → List PyObject → List GLCall
  | _, [] => []
  | i, item :: rest => attach (some i) item ++ attach_color_attachments (i + 1) rest

/-- The status `gl.CheckFramebufferStatus` returns for a complete framebuffer. -/
def GL_FRAMEBUFFER_COMPLETE : Int := 0x8CD5

/-- The message chosen by the `switch (status)` of lines 1077-1111. -/
def framebuffer_status_message (status : Int) : String :=
  if status = 0x8219 then "the framebuffer is not complete (UNDEFINED)"
  else if status = 0x8CD6 then "the framebuffer is not complete (INCOMPLETE_ATTACHMENT)"
  else if status = 0x8CD7 then "the framebuffer is not complete (INCOMPLETE_MISSING_ATTACHMENT)"
  else if status = 0x8CDB then "the framebuffer is not complete (INCOMPLETE_DRAW_BUFFER)"
  else if status = 0x8CDC then "the framebuffer is not complete (INCOMPLETE_READ_BUFFER)"
  else if status = 0x8CDD then "the framebuffer is not complete (UNSUPPORTED)"
  else if status = 0x8D56 then "the framebuffer is not complete (INCOMPLETE_MULTISAMPLE)"
  else if status = 0x8DA8 then "the framebuffer is not complete (INCOMPLETE_LAYER_TARGETS)"
  else "the framebuffer is not complete"

/-- Lines 1006-1129 of `MGLContext_framebuffer`: the part after the depth attachment is known.
`gl` is the calls issued so far, `draw_framebuffer` what `gl.GetIntegerv(GL_FRAMEBUFFER_BINDING)`
reads, `framebuffer_obj` the handle `gl.GenFramebuffers` writes and `status` what
`gl.CheckFramebufferStatus` returns. -/
def assemble_framebuffer (self : MGLContext) (color_attachments : List PyObject)
    (depth_attachment : PyObject) (width height samples : Int) (gl : List GLCall)
    (draw_framebuffer framebuffer_obj status : Int) : Outcome MGLFramebuffer :=
  let gl := gl ++ [.GetIntegerv .GL_FRAMEBUFFER_BINDING, .GenFramebuffers]
  if framebuffer_obj = 0 then
    ⟨.error .cannot_create_framebuffer, gl⟩
  else
    let gl := gl ++ [.BindFramebuffer .GL_FRAMEBUFFER framebuffer_obj] ++
      attach_color_attachments 0 color_attachments ++ attach none depth_attachment ++
      [.CheckFramebufferStatus .GL_FRAMEBUFFER, .BindFramebuffer .GL_FRAMEBUFFER draw_framebuffer]
    if status ≠ GL_FRAMEBUFFER_COMPLETE then
      ⟨.error (.framebuffer_not_complete (framebuffer_status_message status)), gl⟩
    else
      ⟨.ok { framebuffer_obj := framebuffer_obj, color_attachments := color_attachments,
             depth_attachment := depth_attachment, width := width, height := height,
             samples := samples, context := self.id }, gl⟩

/-- The function `MGLContext_framebuffer`, lines 891-1129.  `renderbuffer_obj` is the handle
`gl.GenRenderbuffers` writes when the depth attachment is synthesized; the other driver values
are those of `assemble_framebuffer`. -/
def MGLContext_framebuffer (self : MGLContext) (color_attachments : List PyObject)
    (depth_attachment : PyObject)
    (renderbuffer_obj draw_framebuffer framebuffer_obj status : Int) : Outcome MGLFramebuffer :=
  if color_attachments.length = 0 then
    ⟨.error .color_attachments_empty, []⟩
  else
    match check_color_attachments self 0 (0, 0, 0) color_attachments with
    | .error e => ⟨.error e, []⟩
    | .undefined => ⟨.undefined, []⟩
    | .ok (width, height, samples) =>
      if depth_attachment ≠ .None then
        match depth_attachment.attachment with
        | none => ⟨.error (.depth_attachment_type depth_attachment.tp_name), []⟩
        | some attachment =>
          if attachment.context ≠ self.id then
            ⟨.error .depth_attachment_context, []⟩
          else if attachment.width ≠ width ∨ attachment.height ≠ height ∨
              attachment.samples ≠ samples then
            ⟨.error .depth_attachment_different, []⟩
          else
            assemble_framebuffer self color_attachments depth_attachment width height samples []
              draw_framebuffer framebuffer_obj status
      else if renderbuffer_obj = 0 then
        ⟨.error .cannot_create_renderbuffer, [.GenRenderbuffers]⟩
      else
        let renderbuffer : MGLRenderbuffer :=
          { renderbuffer_obj := renderbuffer_obj, width := width, height := height,
            components := 1, samples := samples, floats := true, depth := true,
            context := self.id }
        assemble_framebuffer self color_attachments (.Renderbuffer renderbuffer) width height
          samples
          [.GenRenderbuffers, .BindRenderbuffer .GL_RENDERBUFFER renderbuffer_obj,
           renderbuffer_storage samples .GL_DEPTH_COMPONENT24 width height]
          draw_framebuffer framebuffer_obj status

/-! ## vertex_array -/

/-- The fields of `MGLAttribute` that `vertex_array` reads.  `normalizable` selects which of the
two pointer procedures `gl_attrib_ptr_proc` is called as. -/
structure MGLAttribute where
  location : Int
  dimension : Int
  array_length : Int
  shape : Char
  scalar_type : Int
  rows_length : Int
  row_length : Int
  row_size : Int
  normalizable : Bool
  deriving DecidableEq, Repr

/-- The fields of `MGLShader` that `program` reads, and its handle. -/
structure MGLShader where
  shader_obj : Int
  shader_slot : Nat
  context : Nat
  deriving DecidableEq, Repr

/-- An item of the `shaders` tuple of `program`: a shader, or an object of another type. -/
inductive ShaderItem where
  | Shader (shader : MGLShader)
  | Object (o : PyObject)
  deriving DecidableEq, Repr

/-- The fields of `MGLProgram`: `attributes` is the dictionary from attribute names to
attributes, `shaders` the tuple the program was created from. -/
structure MGLProgram where
  program_obj : Int
  context : Nat
  attributes : String → Option MGLAttribute
  shaders : List ShaderItem := []

/-- A node of a format, `FormatNode` of `BufferFormat.hpp`. -/
structure FormatNode where
  count : Int
  size : Int
  shape : Char
  deriving DecidableEq, Repr

/-- The aggregate of a format, `FormatInfo` of `BufferFormat.hpp`. -/
structure FormatInfo where
  size : Int
  nodes : Int
  divisor : Int
  valid : Bool
  deriving DecidableEq, Repr

/-- A `FormatIterator` freshly built on a format string: `info` is what `it.info()` returns and
`nodes` the nodes the successive calls of `it.next()` return.  `BufferFormat.hpp` is not part of
the sources, so the function from format strings to iterators is an argument (`parse`) of
`vertex_array`: it stands for `FormatIterator(PyUnicode_AsUTF8(format))` of lines 623 and
725-727, a function of the Python string (an iterator that reads a C string is
`fun format => it (c_str format)`).  A call of `next()` once `nodes` is used up is
`undefined`. -/
structure FormatIterator where
  info : FormatInfo
  nodes : List FormatNode
  deriving DecidableEq, Repr

/-- The statements `node = it.next(); while (node->shape == (x)) node = it.next();` of lines
659-663: the first node that is not padding and the nodes left after it. -/
def next_node : List FormatNode → Option (FormatNode × List FormatNode)
  | [] => none
  | node :: rest => if node.shape = 'x' then next_node rest else some (node, rest)

/-- The C string that `PyUnicode_AsUTF8` hands to a reader of `const char *`: the characters of
a Python string before its first NUL.  (A Python string is a `String` here, so it has no lone
surrogate and the conversion does not fail.) -/
def c_str (s : String) : String :=
  ⟨s.data.takeWhile fun c => c ≠ Char.ofNat 0⟩

/-- The loop over the attribute names of one content entry, lines 648-684, from index `j` on;
`it` is what the iterator has left.  Line 657 takes the name as a C string and line 665 looks
that C string up with `PyDict_GetItemString`: the key looked up, and the name the messages
print with `%s`, is the name cut at its first NUL. -/
def check_attributes (program : MGLProgram) (i : Nat) :
    Nat → List PyObject → List FormatNode → Result Unit
  | _, [], _ => .ok ()
  | j, attrib :: rest, it =>
    match attrib with
    | .Unicode attribute_name =>
      let name := c_str attribute_name
      match next_node it with
      | none => .undefined
      | some (node, it) =>
        match program.attributes name with
        | none => .error (.not_a_valid_attribute name)
        | some attrib =>
          let scalars := int32 (attrib.dimension * attrib.array_length)
          if scalars ≠ node.count then
            .error (.attribute_size name scalars node.count)
          else if attrib.shape ≠ node.shape then
            .error (.attribute_shape name attrib.shape node.shape)
          else
            check_attributes program i (j + 1) rest it
    | _ => .error (.content_attribute_type i j attrib.tp_name)

/-- One entry of `content`: the three items the source takes from the tuple, the third being
the tuple of attribute names. -/
structure ContentTuple where
  buffer : PyObject
  format : PyObject
  attributes : List PyObject
  deriving DecidableEq, Repr

/-- The body of the validation loop, lines 603-684, for `content[i]`. -/
def check_content_tuple (self : MGLContext) (program : MGLProgram)
    (parse : String → FormatIterator) (i : Nat) (tuple : ContentTuple) : Result Unit :=
  match tuple.buffer with
  | .Buffer buffer =>
    match tuple.format with
    | .Unicode format =>
      if buffer.context ≠ self.id then
        .error (.content_buffer_context i)
      else
        let it := parse format
        let format_info := it.info
        if ¬ format_info.valid then
          .error (.content_invalid_format i)
        else if i = 0 ∧ format_info.divisor ≠ 0 then
          .error .first_attribute_per_instance
        else
          let attributes_len : Int := tuple.attributes.length
          if attributes_len = 0 then
            .error (.content_attributes_empty i)
          else if attributes_len ≠ format_info.nodes then
            .error (.content_size_mismatch i format_info.nodes attributes_len)
          else
            check_attributes program i 0 tuple.attributes it.nodes
    | _ => .error (.content_format_type i tuple.format.tp_name)
  | _ => .error (.content_buffer_type i tuple.buffer.tp_name)

/-- The validation loop over `content`, lines 602-685, from index `i` on. -/
def check_content (self : MGLContext) (program : MGLProgram) (parse : String → FormatIterator) :
    Nat → List ContentTuple → Result Unit
  | _, [] => .ok ()
  | i, tuple :: rest =>
    match check_content_tuple self program parse i tuple with
    | .ok _ => check_content self program parse (i + 1) rest
    | .error e => .error e
    | .undefined => .undefined

/-- The field `context` of `index_buffer` as line 590 reads it, before the type of the object is
tested: the context of a buffer, the word found in its place in an object of a foreign type;
nothing is known of what is read in an object of one of the other types. -/
def index_buffer_context : PyObject → Option Nat
  | .Buffer b => some b.context
  | .Other _ context_word => some context_word
  | _ => none

/-- The validation pass of `MGLContext_vertex_array`, lines 585-690: every test made before the
vertex array object is created. -/
def vertex_array_validate (self : MGLContext) (program : MGLProgram)
    (parse : String → FormatIterator) (content : List ContentTuple) (index_buffer : PyObject) :
    Result Unit :=
  if program.context ≠ self.id then
    .error .program_context
  else if index_buffer ≠ .None ∧ index_buffer_context index_buffer = none then
    .undefined
  else if index_buffer ≠ .None ∧ index_buffer_context index_buffer ≠ some self.id then
    .error .index_buffer_context
  else if content.length = 0 then
    .error .content_empty
  else
    match check_content self program parse 0 content with
    | .error e => .error e
    | .undefined => .undefined
    | .ok _ =>
      match index_buffer with
      | .None => .ok ()
      | .Buffer _ => .ok ()
      | _ => .error (.index_buffer_type index_buffer.tp_name)

/-- The padding loop of the binding pass, lines 744-749: the first node that is not padding,
the pointer advanced by `count * size` of every padding node passed, and the nodes left. -/
def next_node_ptr : Int → List FormatNode → Option (FormatNode × Int × List FormatNode)
  | _, [] => none
  | ptr, node :: rest =>
    if node.shape = 'x' then next_node_ptr (ptr + int32 (node.count * node.size)) rest
    else some (node, ptr, rest)

/-- The loop over the rows of an attribute, lines 753-767: `n` rows are left, `r` is the next
one.  It returns the pointer after the rows and the calls issued. -/
def bind_rows (attrib : MGLAttribute) (format_info : FormatInfo) :
    Nat → Nat → Int → Int × List GLCall
  | 0, _, ptr => (ptr, [])
  | n + 1, r, ptr =>
    let location := int32 (attrib.location + r)
    let (last, calls) := bind_rows attrib format_info n (r + 1) (ptr + attrib.row_size)
    (last,
      [.VertexAttribPointer attrib.normalizable location attrib.row_length
          attrib.scalar_type format_info.size ptr,
       .VertexAttribDivisor location format_info.divisor,
       .EnableVertexAttribArray location] ++ calls)

/-- The loop over the attribute names of one content entry in the binding pass, lines 743-768.
Line 751 looks the name object itself up with `PyDict_GetItem`, so the key is the whole name,
with what follows a NUL.  A name that is not a string of the attribute table makes
`PyDict_GetItem` return null, which line 753 dereferences without a test: `undefined`. -/
def bind_attributes (program : MGLProgram) (format_info : FormatInfo) :
    List PyObject → Int → List FormatNode → Result (List GLCall)
  | [], _, _ => .ok []
  | name :: rest, ptr, it =>
    match next_node_ptr ptr it with
    | none => .undefined
    | some (_, ptr, it) =>
      match name with
      | .Unicode name =>
        match program.attributes name with
        | none => .undefined
        | some attrib =>
          let (ptr, calls) := bind_rows attrib format_info attrib.rows_length.toNat 0 ptr
          match bind_attributes program format_info rest ptr it with
          | .ok more => .ok (calls ++ more)
          | .error e => .error e
          | .undefined => .undefined
      | _ => .undefined

/-- The binding loop over `content`, lines 721-769, from index `i` on, with the value of
`array->num_vertices` so far; `indexed` tells whether `array->index_buffer` is a buffer.  It
returns the final `num_vertices` and the calls issued.  A format of size 0 makes the division of
line 731 a division by zero: `undefined`. -/
def bind_content (program : MGLProgram) (parse : String → FormatIterator) (indexed : Bool) :
    Nat → Int → List ContentTuple → Result (Int × List GLCall)
  | _, num_vertices, [] => .ok (num_vertices, [])
  | i, num_vertices, tuple :: rest =>
    match tuple.buffer, tuple.format with
    | .Buffer buffer, .Unicode format =>
      let it := parse format
      let format_info := it.info
      if format_info.size = 0 then .undefined
      else
        let buf_vertices := Int.tdiv buffer.size format_info.size
        let num_vertices :=
          if format_info.divisor = 0 ∧ indexed = false ∧ (i = 0 ∨ num_vertices > buf_vertices)
          then buf_vertices else num_vertices
        match bind_attributes program format_info tuple.attributes 0 it.nodes with
        | .error e => .error e
        | .undefined => .undefined
        | .ok calls =>
          match bind_content program parse indexed (i + 1) num_vertices rest with
          | .ok (n, more) =>
            .ok (n, [.BindBuffer .GL_ARRAY_BUFFER buffer.buffer_obj] ++ calls ++ more)
          | .error e => .error e
          | .undefined => .undefined
    | _, _ => .undefined

/-- The fields of `MGLVertexArray`. -/
structure MGLVertexArray where
  program : MGLProgram
  index_buffer : PyObject
  vertex_array_obj : Int
  num_vertices : Int
  context : Nat

/-- The function `MGLContext_vertex_array`, lines 567-778.  `vertex_array_obj` is the handle
`gl.GenVertexArrays` writes.  `MGLVertexArray_Complete`, called last, is defined outside
`Context.cpp` and is left out.  Where the binding loop is `undefined`, the log holds the calls
issued before the loop: those of the loop up to the fault come after them. -/
def MGLContext_vertex_array (self : MGLContext) (program : MGLProgram)
    (parse : String → FormatIterator) (content : List ContentTuple) (index_buffer : PyObject)
    (vertex_array_obj : Int) : Outcome MGLVertexArray :=
  match vertex_array_validate self program parse content index_buffer with
  | .error e => ⟨.error e, []⟩
  | .undefined => ⟨.undefined, []⟩
  | .ok _ =>
    if vertex_array_obj = 0 then
      ⟨.error .cannot_create_vertex_array, [.GenVertexArrays]⟩
    else
      let gl : List GLCall :=
        [.GenVertexArrays, .BindVertexArray vertex_array_obj, .UseProgram program.program_obj]
      let (num_vertices, gl) : Int × List GLCall :=
        match index_buffer with
        | .Buffer index_buffer =>
          (Int.tdiv index_buffer.size 4,
            gl ++ [.BindBuffer .GL_ELEMENT_ARRAY_BUFFER index_buffer.buffer_obj])
        | _ => (-1, gl)
      match bind_content program parse (index_buffer ≠ .None) 0 num_vertices content with
      | .error e => ⟨.error e, gl⟩
      | .undefined => ⟨.undefined, gl⟩
      | .ok (num_vertices, calls) =>
        ⟨.ok { program := program, index_buffer := index_buffer,
               vertex_array_obj := vertex_array_obj, num_vertices := num_vertices,
               context := self.id }, gl ++ calls⟩

/-! ## program -/

/-- The loop over `varyings`, lines 797-803, from index `i` on. -/
def check_varyings : Nat → List PyObject → Result Unit
  | _, [] => .ok ()
  | i, item :: rest =>
    match item with
    | .Unicode _ => check_varyings (i + 1) rest
    | _ => .error (.varyings_type i item.tp_name)

/-- The loop over `shaders`, lines 809-829, from index `i` on, with the array `counter` as it
stands.  `NUM_SHADER_SLOTS`, the length of the array, is declared outside `Context.cpp`; a slot
that is not below it indexes past the array: `undefined`. -/
def check_shaders (self : MGLContext) (NUM_SHADER_SLOTS : Nat) :
    Nat → (Nat → Int) → List ShaderItem → Result Unit
  | _, _, [] => .ok ()
  | i, counter, item :: rest =>
    match item with
    | .Object o => .error (.shaders_type i o.tp_name)
    | .Shader shader =>
      if shader.context ≠ self.id then
        .error (.shaders_context i)
      else if NUM_SHADER_SLOTS ≤ shader.shader_slot then
        .undefined
      else
        let counter := Function.update counter shader.shader_slot
          (int32 (counter shader.shader_slot + 1))
        if counter shader.shader_slot > 1 then
          .error (.duplicate_shader shader.shader_slot)
        else
          check_shaders self NUM_SHADER_SLOTS (i + 1) counter rest

/-- The function `MGLContext_program`, lines 780-848.  `MGLProgram_Compile` is defined outside
`Context.cpp`: `compiled` is what it leaves, the error it set or the handle and the attribute
table of the linked program; its driver calls are not recorded, so the function returns a
result without a log. -/
def MGLContext_program (self : MGLContext) (NUM_SHADER_SLOTS : Nat) (shaders : List ShaderItem)
    (varyings : List PyObject)
    (compiled : Except String (Int × (String → Option MGLAttribute))) : Result MGLProgram :=
  match check_varyings 0 varyings with
  | .error e => .error e
  | .undefined => .undefined
  | .ok _ =>
    match check_shaders self NUM_SHADER_SLOTS 0 (fun _ => 0) shaders with
    | .error e => .error e
    | .undefined => .undefined
    | .ok _ =>
      match compiled with
      | .error message => .error (.program_compile_error message)
      | .ok (program_obj, attributes) =>
        .ok { program_obj := program_obj, context := self.id, attributes := attributes,
              shaders := shaders }

/-! ## copy_framebuffer -/

/-- The `dst` argument of `copy_framebuffer`: a framebuffer, or an object of another type. -/
inductive CopyTarget where
  | Framebuffer (framebuffer : MGLFramebuffer)
  | Object (o : PyObject)
  deriving DecidableEq, Repr

/-- The test `Py_TYPE(dst) == &MGLFramebuffer_Type`. -/
def CopyTarget.is_framebuffer : CopyTarget → Bool
  | .Framebuffer _ => true
  | .Object _ => false

/-- The function `MGLContext_copy_framebuffer`, lines 208-272.  Both branches test the type of
`dst` against `MGLFramebuffer_Type`; each casts `dst` to the type it names, and the cast of an
object of another type is `undefined`. -/
def MGLContext_copy_framebuffer (dst : CopyTarget) (src : MGLFramebuffer) : Outcome Unit :=
  if dst.is_framebuffer then
    match dst with
    | .Framebuffer dst_framebuffer =>
      let width := if src.width < dst_framebuffer.width then src.width else dst_framebuffer.width
      let height :=
        if src.height < dst_framebuffer.height then src.height else dst_framebuffer.height
      ⟨.ok (),
        [.BindFramebuffer .GL_READ_FRAMEBUFFER src.framebuffer_obj,
         .BindFramebuffer .GL_DRAW_FRAMEBUFFER dst_framebuffer.framebuffer_obj,
         .BlitFramebuffer 0 0 width height 0 0 width height true true .GL_NEAREST]⟩
    | .Object _ => ⟨.undefined, []⟩
  else if dst.is_framebuffer then
    match dst with
    | .Object (.Texture dst_texture) =>
      let width := if src.width < dst_texture.width then src.width else dst_texture.width
      let height := if src.height < dst_texture.height then src.height else dst_texture.height
      let texture_target : GLenum :=
        if dst_texture.samples ≠ 0 then .GL_TEXTURE_2D_MULTISAMPLE else .GL_TEXTURE_2D
      let format := formats dst_texture.components
      ⟨.ok (),
        [.BindFramebuffer .GL_READ_FRAMEBUFFER src.framebuffer_obj,
         .CopyTexImage2D texture_target 0 format 0 0 width height 0]⟩
    | _ => ⟨.undefined, []⟩
  else
    ⟨.error .dst_type, []⟩

/-! ## Messages -/

/-- The text of an error: the format string of the source with its arguments substituted.
`SHADER_NAME`, the table of the names of the shader slots, is declared outside `Context.cpp`. -/
def MGLError.message (SHADER_NAME : Nat → String) : MGLError → String
  | .buffer_underflow => "buffer underflow"
  | .buffer_overflow => "buffer overflow"
  | .data_and_reserve_mutually_exclusive => "data and reserve are mutually exclusive"
  | .no_buffer_interface tp_name =>
    "data (" ++ tp_name ++ ") does not support buffer interface"
  | .buffer_cannot_be_empty => "the buffer cannot be empty"
  | .cannot_create_buffer => "cannot create buffer"
  | .invalid_components => "the components must be 1, 2, 3 or 4"
  | .invalid_samples => "the number of samples is invalid"
  | .invalid_alignment => "the alignment must be 1, 2, 4 or 8"
  | .multisample_not_writable => "multisample textures are not writable directly"
  | .data_size_mismatch len expected_size =>
    "data size mismatch " ++ toString len ++ " != " ++ toString expected_size
  | .cannot_create_texture => "cannot create texture"
  | .cannot_create_renderbuffer => "cannot create renderbuffer"
  | .color_attachments_empty => "the color_attachments must not be empty"
  | .color_attachment_type i tp_name =>
    "color_attachments[" ++ toString i ++ "] must be a Renderbuffer or Texture not " ++ tp_name
  | .color_attachments_different => "the color_attachments have different sizes or samples"
  | .color_attachment_context i =>
    "color_attachments[" ++ toString i ++ "] belongs to a different context"
  | .depth_attachment_type tp_name =>
    "the depth_attachment must be a Renderbuffer or Texture not " ++ tp_name
  | .depth_attachment_context => "the depth_attachment belongs to a different context"
  | .depth_attachment_different => "the depth_attachment have different sizes or samples"
  | .cannot_create_framebuffer => "cannot create framebuffer"
  | .framebuffer_not_complete message => message
  | .program_context => "the program belongs to a different context"
  | .index_buffer_context => "the index_buffer belongs to a different context"
  | .content_empty => "the content must not be emtpy"
  | .content_buffer_type i tp_name =>
    "content[" ++ toString i ++ "][0] must be a Buffer not " ++ tp_name
  | .content_format_type i tp_name =>
    "content[" ++ toString i ++ "][1] must be a string not " ++ tp_name
  | .content_buffer_context i =>
    "content[" ++ toString i ++ "][0] belongs to a different context"
  | .content_invalid_format i => "content[" ++ toString i ++ "][1] is an invalid format"
  | .first_attribute_per_instance =>
    "the first vertex attribute must not be a per instance attribute"
  | .content_attributes_empty i => "content[" ++ toString i ++ "][2] must not be empty"
  | .content_size_mismatch i nodes attributes_len =>
    "content[" ++ toString i ++ "][1] and content[" ++ toString i ++ "][2] size mismatch " ++
      toString nodes ++ " != " ++ toString attributes_len
  | .content_attribute_type i j tp_name =>
    "content[" ++ toString i ++ "][2][" ++ toString j ++ "] must be a string not " ++ tp_name
  | .not_a_valid_attribute name => name ++ " is not a valid attribute"
  | .attribute_size name scalars count =>
    name ++ " size is " ++ toString scalars ++ " not " ++ toString count
  | .attribute_shape name shape node_shape =>
    name ++ " shape is \x27" ++ String.singleton shape ++ "\x27 not \x27" ++
      String.singleton node_shape ++ "\x27"
  | .index_buffer_type tp_name => "the index_buffer must be a Buffer not " ++ tp_name
  | .cannot_create_vertex_array => "cannot create vertex array"
  | .varyings_type i tp_name => "varyings[" ++ toString i ++ "] must be a string not " ++ tp_name
  | .shaders_type i tp_name => "shaders[" ++ toString i ++ "] must be a Shader not " ++ tp_name
  | .shaders_context i => "shaders[" ++ toString i ++ "] belongs to a different context"
  | .duplicate_shader shader_slot => "duplicate " ++ SHADER_NAME shader_slot
  | .program_compile_error message => message
  | .dst_type => "the dst must be a Framebuffer or Texture"
  | .arguments_count expected given =>
    "function takes exactly " ++ toString expected ++ " arguments (" ++ toString given ++
      " given)"

/-! ## The driver state and the released objects -/

/-- The framebuffer bindings of the driver state: the framebuffer bound for drawing, which is
what `GL_FRAMEBUFFER_BINDING` names, and the framebuffer bound for reading. -/
structure FramebufferBinding where
  draw : Int
  read : Int
  deriving DecidableEq, Repr

/-- The effect of `gl.BindFramebuffer(target, framebuffer_obj)` on the bindings: the target
`GL_FRAMEBUFFER` sets both, `GL_DRAW_FRAMEBUFFER` the draw binding, `GL_READ_FRAMEBUFFER` the
read binding; with a target that is none of the three the driver sets none. -/
def bind_framebuffer (binding : FramebufferBinding) (target : GLenum) (framebuffer_obj : Int) :
    FramebufferBinding :=
  if target = .GL_FRAMEBUFFER then ⟨framebuffer_obj, framebuffer_obj⟩
  else if target = .GL_DRAW_FRAMEBUFFER then ⟨framebuffer_obj, binding.read⟩
  else if target = .GL_READ_FRAMEBUFFER then ⟨binding.draw, framebuffer_obj⟩
  else binding

/-- The framebuffer bindings after the calls of a log, `binding` being the bindings before
them: only `gl.BindFramebuffer` changes them. -/
def framebuffer_binding (binding : FramebufferBinding) : List GLCall → FramebufferBinding
  | [] => binding
  | .BindFramebuffer target framebuffer_obj :: rest =>
    framebuffer_binding (bind_framebuffer binding target framebuffer_obj) rest
  | _ :: rest => framebuffer_binding binding rest

/-- An object under construction that `framebuffer` hands to `Py_DECREF`, with the handle it
holds. -/
inductive Released where
  | renderbuffer (renderbuffer_obj : Int)
  | framebuffer (framebuffer_obj : Int)
  deriving DecidableEq, Repr

/-- The calls of `Py_DECREF` in `MGLContext_framebuffer`: line 979, next to "cannot create
renderbuffer", and line 1016, next to "cannot create framebuffer".  No other path of the function
releases an object. -/
def MGLContext_framebuffer_decref (self : MGLContext) (color_attachments : List PyObject)
    (depth_attachment : PyObject)
    (renderbuffer_obj draw_framebuffer framebuffer_obj status : Int) : List Released :=
  match (MGLContext_framebuffer self color_attachments depth_attachment renderbuffer_obj
    draw_framebuffer framebuffer_obj status).result with
  | .error .cannot_create_renderbuffer => [.renderbuffer renderbuffer_obj]
  | .error .cannot_create_framebuffer => [.framebuffer framebuffer_obj]
  | _ => []

/-! ## Specification vocabulary -/

/-- The slot of an item of the `shaders` tuple, for the items that are shaders. -/
def ShaderItem.slot : ShaderItem → Option Nat
  | .Shader shader => some shader.shader_slot
  | .Object _ => none

/-- The slots the shaders of a tuple occupy, in order. -/
def slots (shaders : List ShaderItem) : List Nat :=
  shaders.filterMap ShaderItem.slot

/-- In the words of the specification: `r` is the smallest multiple of `alignment` that is at
least `n` ("rounded up to alignment"). -/
def is_smallest_multiple_ge (alignment n r : Int) : Prop :=
  alignment ∣ r ∧ n ≤ r ∧ ∀ m : Int, alignment ∣ m → n ≤ m → r ≤ m

/-- In the words of the specification: the `(width, height, samples)` of an attachment, `none`
for an object that is neither a texture nor a renderbuffer. -/
def PyObject.shape (o : PyObject) : Option (Int × Int × Int) :=
  o.attachment.map fun a => (a.width, a.height, a.samples)

/-- The nodes of a format that are not padding, in order. -/
def non_padding (nodes : List FormatNode) : List FormatNode :=
  nodes.filter fun node => node.shape ≠ 'x'

/-- In the words of the specification, for the `j`-th attribute name of a content entry: the name
is a string that exists in the attribute table of the program, and the scalar count of that
attribute (the `int` product `dimension * array_length`) and its shape code are the element
count and the shape code of the `j`-th non-padding node of the format of the entry. -/
def attribute_matches (program : MGLProgram) (parse : String → FormatIterator)
    (tuple : ContentTuple) (j : Nat) : Bool :=
  match tuple.format, tuple.attributes[j]? with
  | .Unicode format, some (.Unicode name) =>
    match program.attributes name, (non_padding (parse format).nodes)[j]? with
    | some attrib, some node =>
      int32 (attrib.dimension * attrib.array_length) = node.count ∧ attrib.shape = node.shape
    | _, _ => false
  | _, _ => false

/-- The instancing divisor of the format of a content entry. -/
def ContentTuple.divisor (parse : String → FormatIterator) (tuple : ContentTuple) : Int :=
  match tuple.format with
  | .Unicode format => (parse format).info.divisor
  | _ => 0

/-- In the words of the specification: the byte size of the buffer of a content entry divided by
the total byte size of its format (the division of `int`s). -/
def ContentTuple.buf_vertices (parse : String → FormatIterator) (tuple : ContentTuple) : Int :=
  match tuple.buffer, tuple.format with
  | .Buffer buffer, .Unicode format => Int.tdiv buffer.size (parse format).info.size
  | _, _ => 0

/-- In the words of the specification: the sum of `count * size` over the padding nodes that
precede the `j`-th non-padding node of a format. -/
def padding_before : List FormatNode → Nat → Int
  | [], _ => 0
  | node :: rest, j =>
    if node.shape = 'x' then node.count * node.size + padding_before rest j
    else
      match j with
      | 0 => 0
      | j + 1 => padding_before rest j

/-- In the words of the specification: the sum of `rows_length * row_size` over the attributes
a list of names denotes in the attribute table of a program. -/
def rows_bytes (program : MGLProgram) : List PyObject → Int
  | [] => 0
  | .Unicode name :: rest =>
    (match program.attributes name with
      | some attrib => attrib.rows_length * attrib.row_size
      | none => 0) + rows_bytes program rest
  | _ :: rest => rows_bytes program rest

/-- In the words of the specification: the byte offset of row `r` of the `j`-th named attribute
of a content entry, `attrib` being that attribute: the padding before the `j`-th non-padding
node, the rows of the attributes named before, and `r` rows of `attrib`. -/
def pointer_offset (program : MGLProgram) (nodes : List FormatNode) (names : List PyObject)
    (j r : Nat) (attrib : MGLAttribute) : Int :=
  padding_before nodes j + rows_bytes program (names.take j) + r * attrib.row_size

/-- The three calls of the binding pass for one row, lines 756-764: the pointer, the divisor,
the enabling of the location. -/
def row_calls (attrib : MGLAttribute) (format_info : FormatInfo) (location ptr : Int) :
    List GLCall :=
  [.VertexAttribPointer attrib.normalizable location attrib.row_length attrib.scalar_type
      format_info.size ptr,
   .VertexAttribDivisor location format_info.divisor,
   .EnableVertexAttribArray location]

/-! ## Objects for the examples -/

/-- A program with two attributes: `in_vert`, a vector of 3 floats at location 0, and
`in_offset`, a vector of 2 floats at location 1. -/
def demo_program : MGLProgram where
  program_obj := 3
  context := 0
  attributes := fun name =>
    if name = "in_vert" then some ⟨0, 3, 1, 'f', 5126, 1, 3, 12, false⟩
    else if name = "in_offset" then some ⟨1, 2, 1, 'f', 5126, 1, 2, 8, false⟩
    else none

/-- A stand-in for the parser of `BufferFormat.hpp` on three formats: three floats, two floats
after four bytes of padding, and two floats per instance; every other string is invalid. -/
def demo_parse : String → FormatIterator := fun format =>
  if format = "3f" then ⟨⟨12, 1, 0, true⟩, [⟨3, 4, 'f'⟩]⟩
  else if format = "4x2f" then ⟨⟨12, 1, 0, true⟩, [⟨4, 1, 'x'⟩, ⟨2, 4, 'f'⟩]⟩
  else if format = "2f/i" then ⟨⟨8, 1, 1, true⟩, [⟨2, 4, 'f'⟩]⟩
  else ⟨⟨0, 0, 0, false⟩, []⟩

/-- Content of three entries in context 0: a buffer of 1200 bytes read as `3f` (100 vertices), a
buffer of 960 bytes read as `4x2f` (80 vertices) and a buffer of 16 bytes read per instance. -/
def demo_content : List ContentTuple :=
  [⟨.Buffer ⟨11, 1200, false, 0⟩, .Unicode "3f", [.Unicode "in_vert"]⟩,
   ⟨.Buffer ⟨12, 960, false, 0⟩, .Unicode "4x2f", [.Unicode "in_offset"]⟩,
   ⟨.Buffer ⟨13, 16, false, 0⟩, .Unicode "2f/i", [.Unicode "in_offset"]⟩]

/-- A content entry whose attribute name has a NUL after `in_vert`: a buffer of 1200 bytes in
context 0 read as `3f`. -/
def nul_content : List ContentTuple :=
  [⟨.Buffer ⟨11, 1200, false, 0⟩, .Unicode "3f", [.Unicode "in_vert\x00zz"]⟩]

/-! # Theorems -/

/-! ## Machine integers -/

theorem int32_eq_self {x : Int} (h : isInt32 x) : int32 x = x := by
  unfold isInt32 at h
  unfold int32
  omega

theorem int32_isInt32 (x : Int) : isInt32 (int32 x) := by
  unfold isInt32 int32
  omega

/-! ## copy_buffer -/

/-- C3 (the code at the failing input): a call with `size = -1` and `read_offset = 20` on a source
of 10 bytes satisfies `read_offset + size > src.size`, yet is not refused: the size becomes
`10 - 20 = -10`, both range tests pass, and the driver copy is issued with length `-10`. -/
theorem copy_buffer_negative_remainder_is_copied :
    (20 : Int) + (-1) > (MGLBuffer.mk 2 10 false 0).size ∧
    MGLContext_copy_buffer (MGLBuffer.mk 1 10 false 0) (MGLBuffer.mk 2 10 false 0) (-1) 20 0 =
      ⟨.ok (),
        [.BindBuffer .GL_COPY_READ_BUFFER 2, .BindBuffer .GL_COPY_WRITE_BUFFER 1,
         .CopyBufferSubData .GL_COPY_READ_BUFFER .GL_COPY_WRITE_BUFFER 20 0 (-10)]⟩ := by
  decide

/-- C4 (as stated, refuted): with `size = -1`, a source of 10 bytes and a destination of 5 bytes
the call is refused with "buffer overflow" and no driver call is issued, so nothing is copied. -/
theorem copy_buffer_remainder_not_always_copied :
    MGLContext_copy_buffer (MGLBuffer.mk 1 5 false 0) (MGLBuffer.mk 2 10 false 0) (-1) 0 0 =
      ⟨.error .buffer_overflow, []⟩ := by
  decide

/-- C4 (amended): for `size = -1` and a read offset inside the source,
`0 <= read_offset <= src.size`: when `write_offset >= 0` and the remainder fits the destination,
`write_offset + (src.size - read_offset) <= dst.size`, the driver copy is issued, once, with
length `src.size - read_offset`; when `write_offset < 0` or the remainder does not fit, the call
fails and no driver call is issued. -/
theorem copy_buffer_remainder (dst src : MGLBuffer) (read_offset write_offset : Int)
    (hsrc : isInt32 src.size) (hdst : isInt32 dst.size) (hw : isInt32 write_offset)
    (hr0 : 0 ≤ read_offset) (hr1 : read_offset ≤ src.size) :
    (0 ≤ write_offset → write_offset + (src.size - read_offset) ≤ dst.size →
      MGLContext_copy_buffer dst src (-1) read_offset write_offset =
        ⟨.ok (),
          [.BindBuffer .GL_COPY_READ_BUFFER src.buffer_obj,
           .BindBuffer .GL_COPY_WRITE_BUFFER dst.buffer_obj,
           .CopyBufferSubData .GL_COPY_READ_BUFFER .GL_COPY_WRITE_BUFFER read_offset write_offset
              (src.size - read_offset)]⟩) ∧
    (write_offset < 0 →
      MGLContext_copy_buffer dst src (-1) read_offset write_offset =
        ⟨.error .buffer_underflow, []⟩) ∧
    (0 ≤ write_offset → write_offset + (src.size - read_offset) > dst.size →
      write_offset + (src.size - read_offset) < 2147483648 →
      MGLContext_copy_buffer dst src (-1) read_offset write_offset =
        ⟨.error .buffer_overflow, []⟩) := by
  unfold isInt32 at hsrc hdst hw
  have hsz : int32 (src.size - read_offset) = src.size - read_offset :=
    int32_eq_self (by unfold isInt32; omega)
  have hrd : int32 (read_offset + (src.size - read_offset)) = src.size := by
    rw [int32_eq_self (by unfold isInt32; omega)]; omega
  have hneg : ((-1 : Int) < 0) = True := by decide
  refine ⟨?_, ?_, ?_⟩
  · intro h0 hfit
    have hwr : int32 (write_offset + (src.size - read_offset)) =
        write_offset + (src.size - read_offset) :=
      int32_eq_self (by unfold isInt32; omega)
    have h1 : ¬ (read_offset < 0 ∨ write_offset < 0) := by omega
    have h2 : ¬ (src.size > src.size ∨ write_offset + (src.size - read_offset) > dst.size) := by
      omega
    unfold MGLContext_copy_buffer
    simp only [hneg, if_true, hsz, hrd, hwr, if_neg h1, if_neg h2]
  · intro hlt
    have h1 : read_offset < 0 ∨ write_offset < 0 := Or.inr hlt
    unfold MGLContext_copy_buffer
    simp only [hneg, if_true, if_pos h1]
  · intro h0 hbig hmax
    have hwr : int32 (write_offset + (src.size - read_offset)) =
        write_offset + (src.size - read_offset) :=
      int32_eq_self (by unfold isInt32; omega)
    have h1 : ¬ (read_offset < 0 ∨ write_offset < 0) := by omega
    have h2 : src.size > src.size ∨ write_offset + (src.size - read_offset) > dst.size :=
      Or.inr hbig
    unfold MGLContext_copy_buffer
    simp only [hneg, if_true, hsz, hrd, hwr, if_neg h1, if_pos h2]

/-- A source of 10 bytes read from offset 4 into a destination of 8 bytes at offset 2: the six
remaining bytes are copied. -/
theorem copy_buffer_remainder_witness :
    MGLContext_copy_buffer (MGLBuffer.mk 1 8 false 0) (MGLBuffer.mk 2 10 false 0) (-1) 4 2 =
      ⟨.ok (),
        [.BindBuffer .GL_COPY_READ_BUFFER 2, .BindBuffer .GL_COPY_WRITE_BUFFER 1,
         .CopyBufferSubData .GL_COPY_READ_BUFFER .GL_COPY_WRITE_BUFFER 4 2 (10 - 4)]⟩ :=
  (copy_buffer_remainder (MGLBuffer.mk 1 8 false 0) (MGLBuffer.mk 2 10 false 0) 4 2
    (by decide) (by decide) (by decide) (by decide) (by decide)).1 (by decide) (by decide)

/-! ## buffer -/

/-- C9 (the code at the failing input): `reserve` parsed from 4294967295 is the `int` -1; it is
not zero, so the call is accepted and returns a buffer whose size is -1, which is also the size
passed to `gl.BufferData`. -/
theorem buffer_negative_reserve_is_created :
    MGLContext_buffer ⟨0, 0⟩ .None (int32 4294967295) false 7 =
      ⟨.ok { buffer_obj := 7, size := -1, dynamic := false, context := 0 },
        [.GenBuffers, .BindBuffer .GL_ARRAY_BUFFER 7,
         .BufferData .GL_ARRAY_BUFFER (-1) false .GL_STATIC_DRAW]⟩ := by
  decide

/-- C10 (as stated, refuted): `buffer(data=None, reserve=0, dynamic=False)` does not fail with
"the buffer cannot be empty". -/
theorem buffer_none_zero_is_not_empty_error :
    (MGLContext_buffer ⟨0, 0⟩ .None 0 false 7).result ≠ .error .buffer_cannot_be_empty := by
  decide

/-- C10 (amended): `buffer(data=None, reserve=0, dynamic)` fails with "data and reserve are
mutually exclusive" before any driver call, whatever the context and the handle the driver would
give; "the buffer cannot be empty" is the error of data of length 0 given with `reserve = 0`. -/
theorem buffer_none_zero_is_argument_conflict (self : MGLContext) (dynamic : Bool)
    (buffer_obj : Int) :
    MGLContext_buffer self .None 0 dynamic buffer_obj =
      ⟨.error .data_and_reserve_mutually_exclusive, []⟩ ∧
    MGLContext_buffer self (.bytes 0) 0 dynamic buffer_obj =
      ⟨.error .buffer_cannot_be_empty, []⟩ := by
  constructor <;> simp [MGLContext_buffer]

/-! ## The sample count test -/

theorem nat_and_pred_eq_zero_iff :
    ∀ n : Nat, 0 < n → (n &&& (n - 1) = 0 ↔ ∃ k : Nat, n = 2 ^ k) := by
  intro n
  induction n using Nat.strong_induction_on with
  | _ n ih =>
    intro hn
    have hmod : (n &&& (n - 1)) % 2 = 0 := by
      have h := @Nat.and_mod_two_eq_one n (n - 1)
      have : ¬ ((n &&& (n - 1)) % 2 = 1) := by
        rw [h]; omega
      omega
    have hdiv : (n &&& (n - 1)) / 2 = n / 2 &&& (n - 1) / 2 := Nat.and_div_two
    have hzero : (n &&& (n - 1) = 0) ↔ (n / 2 &&& (n - 1) / 2 = 0) := by
      rw [← hdiv]; omega
    rw [hzero]
    rcases Nat.even_or_odd n with ⟨m, hm⟩ | ⟨m, hm⟩
    · have hm0 : 0 < m := by omega
      have e1 : n / 2 = m := by omega
      have e2 : (n - 1) / 2 = m - 1 := by omega
      rw [e1, e2, ih m (by omega) hm0]
      constructor
      · rintro ⟨k, hk⟩
        exact ⟨k + 1, by rw [pow_succ]; omega⟩
      · rintro ⟨k, hk⟩
        cases k with
        | zero => simp at hk; omega
        | succ k => exact ⟨k, by rw [pow_succ] at hk; omega⟩
    · have e1 : n / 2 = m := by omega
      have e2 : (n - 1) / 2 = m := by omega
      rw [e1, e2, Nat.and_self]
      constructor
      · intro h0
        exact ⟨0, by simp; omega⟩
      · rintro ⟨k, hk⟩
        cases k with
        | zero => simp at hk; omega
        | succ k => rw [pow_succ] at hk; omega

theorem land_zero_neg_one : Int.land 0 (-1) = 0 := by
  show ((Nat.ldiff 0 0 : Nat) : Int) = 0
  simp [Nat.ldiff, Nat.bitwise]

/-- The test `samples & (samples - 1)` on every `int` but the least, where `samples - 1`
overflows: it lets through 0 and the powers of two and nothing else. -/
theorem samples_invalid_eq_false_iff (s : Int) (hlo : -2147483648 < s) (hhi : s < 2147483648) :
    samples_invalid s = false ↔ (s = 0 ∨ ∃ k : Nat, s = 2 ^ k) := by
  have hwrap : int32 (s - 1) = s - 1 := by unfold int32; omega
  unfold samples_invalid
  rw [hwrap]
  simp only [ne_eq, decide_not, Bool.not_eq_false', decide_eq_true_eq]
  rcases lt_trichotomy s 0 with hneg | hzero | hpos
  · obtain ⟨m, rfl⟩ : ∃ m : Nat, s = Int.negSucc m := ⟨(-s - 1).toNat, by
      rw [Int.negSucc_eq]; omega⟩
    have h1 : Int.negSucc m - 1 = Int.negSucc (m + 1) := by
      rw [Int.negSucc_eq, Int.negSucc_eq]; push_cast; ring
    rw [h1]
    constructor
    · intro h
      exact absurd h (by show Int.negSucc (m ||| (m + 1)) ≠ 0; exact Int.negSucc_ne_zero _)
    · rintro (h | ⟨k, hk⟩)
      · exact absurd h (Int.negSucc_ne_zero _)
      · have : (0 : Int) < 2 ^ k := by positivity
        omega
  · subst hzero
    simp [land_zero_neg_one]
  · obtain ⟨n, rfl⟩ : ∃ n : Nat, s = (n : Int) := ⟨s.toNat, by omega⟩
    have hn : 0 < n := by exact_mod_cast hpos
    have h1 : (n : Int) - 1 = ((n - 1 : Nat) : Int) := by omega
    rw [h1]
    have h2 : Int.land (n : Int) ((n - 1 : Nat) : Int) = ((n &&& (n - 1) : Nat) : Int) := rfl
    rw [h2]
    have h3 : (((n &&& (n - 1) : Nat) : Int) = 0) ↔ (n &&& (n - 1) = 0) := by
      exact_mod_cast Iff.rfl
    rw [h3, nat_and_pred_eq_zero_iff n hn]
    constructor
    · rintro ⟨k, hk⟩
      exact Or.inr ⟨k, by rw [hk]; push_cast; ring⟩
    · rintro (h | ⟨k, hk⟩)
      · omega
      · exact ⟨k, by exact_mod_cast hk⟩

theorem samples_invalid_zero : samples_invalid 0 = false :=
  (samples_invalid_eq_false_iff 0 (by decide) (by decide)).2 (Or.inl rfl)


theorem texture_samples_error (self : MGLContext) (width height components : Int)
    (data : PyData) (s alignment : Int) (floats : Bool) (texture_obj : Int)
    (h1 : 1 ≤ components) (h4 : components ≤ 4) (hinv : samples_invalid s = true) :
    MGLContext_texture self width height components data s alignment floats texture_obj =
      ⟨.error .invalid_samples, []⟩ := by
  have hc : ¬ (components < 1 ∨ components > 4) := by omega
  simp [MGLContext_texture, hc, hinv]

theorem depth_texture_samples_error (self : MGLContext) (width height : Int) (data : PyData)
    (s alignment texture_obj : Int) (hinv : samples_invalid s = true) :
    MGLContext_depth_texture self width height data s alignment texture_obj =
      ⟨.error .invalid_samples, []⟩ := by
  simp [MGLContext_depth_texture, hinv]

theorem renderbuffer_samples_error (self : MGLContext) (width height components s : Int)
    (floats : Bool) (renderbuffer_obj : Int)
    (h1 : 1 ≤ components) (h4 : components ≤ 4) (hinv : samples_invalid s = true) :
    MGLContext_renderbuffer self width height components s floats renderbuffer_obj =
      ⟨.error .invalid_samples, []⟩ := by
  have hc : ¬ (components < 1 ∨ components > 4) := by omega
  simp [MGLContext_renderbuffer, hc, hinv]

theorem depth_renderbuffer_samples_error (self : MGLContext) (width height s : Int)
    (renderbuffer_obj : Int) (hinv : samples_invalid s = true) :
    MGLContext_depth_renderbuffer self width height s renderbuffer_obj =
      ⟨.error .invalid_samples, []⟩ := by
  simp [MGLContext_depth_renderbuffer, hinv]

theorem texture_no_samples_error (self : MGLContext) (width height components : Int)
    (data : PyData) (s alignment : Int) (floats : Bool) (texture_obj : Int)
    (hval : samples_invalid s = false) :
    (MGLContext_texture self width height components data s alignment floats
      texture_obj).result ≠ .error .invalid_samples := by
  cases data <;> simp only [MGLContext_texture, hval] <;> split_ifs <;>
    first | contradiction | simp

theorem depth_texture_no_samples_error (self : MGLContext) (width height : Int) (data : PyData)
    (s alignment texture_obj : Int) (hval : samples_invalid s = false) :
    (MGLContext_depth_texture self width height data s alignment texture_obj).result ≠
      .error .invalid_samples := by
  cases data <;> simp only [MGLContext_depth_texture, hval] <;> split_ifs <;>
    first | contradiction | simp

theorem renderbuffer_no_samples_error (self : MGLContext) (width height components s : Int)
    (floats : Bool) (renderbuffer_obj : Int) (hval : samples_invalid s = false) :
    (MGLContext_renderbuffer self width height components s floats renderbuffer_obj).result ≠
      .error .invalid_samples := by
  simp only [MGLContext_renderbuffer, hval]
  split_ifs <;> first | contradiction | simp

theorem depth_renderbuffer_no_samples_error (self : MGLContext) (width height s : Int)
    (renderbuffer_obj : Int) (hval : samples_invalid s = false) :
    (MGLContext_depth_renderbuffer self width height s renderbuffer_obj).result ≠
      .error .invalid_samples := by
  simp only [MGLContext_depth_renderbuffer, hval]
  split_ifs <;> first | contradiction | simp

/-- C7: for a non-negative sample count `s` (an `int`), the test `s & (s - 1)` is zero exactly
when `s` is 0 or a power of two; `texture`, `depth_texture`, `renderbuffer` and
`depth_renderbuffer` refuse every other `s` with "the number of samples is invalid" (in `texture`
and `renderbuffer` once the components are in 1..4, the test made before), and never give that
error for an `s` that is 0 or a power of two. -/
theorem samples_accepted_iff_zero_or_power_of_two (s : Int) (h0 : 0 ≤ s)
    (hint : s < 2147483648) :
    (samples_invalid s = false ↔ (s = 0 ∨ ∃ k : Nat, s = 2 ^ k)) ∧
    (¬ (s = 0 ∨ ∃ k : Nat, s = 2 ^ k) →
      (∀ self width height components data alignment floats texture_obj,
        1 ≤ components → components ≤ 4 →
        MGLContext_texture self width height components data s alignment floats texture_obj =
          ⟨.error .invalid_samples, []⟩) ∧
      (∀ self width height data alignment texture_obj,
        MGLContext_depth_texture self width height data s alignment texture_obj =
          ⟨.error .invalid_samples, []⟩) ∧
      (∀ self width height components floats renderbuffer_obj,
        1 ≤ components → components ≤ 4 →
        MGLContext_renderbuffer self width height components s floats renderbuffer_obj =
          ⟨.error .invalid_samples, []⟩) ∧
      (∀ self width height renderbuffer_obj,
        MGLContext_depth_renderbuffer self width height s renderbuffer_obj =
          ⟨.error .invalid_samples, []⟩)) ∧
    ((s = 0 ∨ ∃ k : Nat, s = 2 ^ k) →
      (∀ self width height components data alignment floats texture_obj,
        (MGLContext_texture self width height components data s alignment floats
          texture_obj).result ≠ .error .invalid_samples) ∧
      (∀ self width height data alignment texture_obj,
        (MGLContext_depth_texture self width height data s alignment texture_obj).result ≠
          .error .invalid_samples) ∧
      (∀ self width height components floats renderbuffer_obj,
        (MGLContext_renderbuffer self width height components s floats renderbuffer_obj).result ≠
          .error .invalid_samples) ∧
      (∀ self width height renderbuffer_obj,
        (MGLContext_depth_renderbuffer self width height s renderbuffer_obj).result ≠
          .error .invalid_samples)) := by
  have hiff := samples_invalid_eq_false_iff s (by omega) hint
  refine ⟨hiff, ?_, ?_⟩
  · intro hnot
    have hinv : samples_invalid s = true := by
      cases h : samples_invalid s
      · exact absurd (hiff.1 h) hnot
      · rfl
    exact ⟨fun self width height components data alignment floats texture_obj h1 h4 =>
        texture_samples_error self width height components data s alignment floats texture_obj
          h1 h4 hinv,
      fun self width height data alignment texture_obj =>
        depth_texture_samples_error self width height data s alignment texture_obj hinv,
      fun self width height components floats renderbuffer_obj h1 h4 =>
        renderbuffer_samples_error self width height components s floats renderbuffer_obj
          h1 h4 hinv,
      fun self width height renderbuffer_obj =>
        depth_renderbuffer_samples_error self width height s renderbuffer_obj hinv⟩
  · intro hpow
    have hval : samples_invalid s = false := hiff.2 hpow
    exact ⟨fun self width height components data alignment floats texture_obj =>
        texture_no_samples_error self width height components data s alignment floats
          texture_obj hval,
      fun self width height data alignment texture_obj =>
        depth_texture_no_samples_error self width height data s alignment texture_obj hval,
      fun self width height components floats renderbuffer_obj =>
        renderbuffer_no_samples_error self width height components s floats renderbuffer_obj
          hval,
      fun self width height renderbuffer_obj =>
        depth_renderbuffer_no_samples_error self width height s renderbuffer_obj hval⟩

/-- The sample counts 4 and 3: 4 passes the test, 3 does not. -/
theorem samples_accepted_iff_zero_or_power_of_two_witness :
    samples_invalid 4 = false ∧ samples_invalid 3 = true :=
  ⟨(samples_accepted_iff_zero_or_power_of_two 4 (by decide) (by decide)).1.2
      (Or.inr ⟨2, by norm_num⟩),
   by decide⟩
/-! ## texture and renderbuffer: the shape tests come first -/

/-- On every `int` but the least: a component count outside 1..4, or a sample count that is
not 0 or a power of two, makes `texture` fail with "the components must be 1, 2, 3 or 4" or
"the number of samples is invalid" with no driver call issued and no texture returned, whatever
the other arguments; the same holds for `renderbuffer`.  The least `int` is the one value
left out: there `samples - 1` wraps and the test lets the value through. -/
theorem texture_shape_error_above_least_int (self : MGLContext)
    (width height components : Int) (data : PyData) (samples alignment : Int) (floats : Bool)
    (texture_obj renderbuffer_obj : Int)
    (hlo : -2147483648 < samples) (hhi : samples < 2147483648)
    (hbad : components < 1 ∨ components > 4 ∨ ¬ (samples = 0 ∨ ∃ k : Nat, samples = 2 ^ k)) :
    (∃ e, (e = MGLError.invalid_components ∨ e = MGLError.invalid_samples) ∧
      MGLContext_texture self width height components data samples alignment floats texture_obj =
        ⟨.error e, []⟩) ∧
    (∃ e, (e = MGLError.invalid_components ∨ e = MGLError.invalid_samples) ∧
      MGLContext_renderbuffer self width height components samples floats renderbuffer_obj =
        ⟨.error e, []⟩) := by
  by_cases hc : components < 1 ∨ components > 4
  · exact ⟨⟨_, Or.inl rfl, by simp [MGLContext_texture, hc]⟩,
      ⟨_, Or.inl rfl, by simp [MGLContext_renderbuffer, hc]⟩⟩
  · have hnot : ¬ (samples = 0 ∨ ∃ k : Nat, samples = 2 ^ k) := by
      rcases hbad with h | h | h
      · exact absurd (Or.inl h) hc
      · exact absurd (Or.inr h) hc
      · exact h
    have hinv : samples_invalid samples = true := by
      cases h : samples_invalid samples
      · exact absurd ((samples_invalid_eq_false_iff samples hlo hhi).1 h) hnot
      · rfl
    exact ⟨⟨_, Or.inr rfl, texture_samples_error self width height components data samples
        alignment floats texture_obj (by omega) (by omega) hinv⟩,
      ⟨_, Or.inr rfl, renderbuffer_samples_error self width height components samples floats
        renderbuffer_obj (by omega) (by omega) hinv⟩⟩

/-- A texture of 5 components: refused with the components error, no driver call. -/
theorem texture_shape_error_above_least_int_witness :
    (∃ e, (e = MGLError.invalid_components ∨ e = MGLError.invalid_samples) ∧
      MGLContext_texture ⟨0, 0⟩ 16 16 5 .None 0 1 true 7 = ⟨.error e, []⟩) ∧
    (∃ e, (e = MGLError.invalid_components ∨ e = MGLError.invalid_samples) ∧
      MGLContext_renderbuffer ⟨0, 0⟩ 16 16 5 0 true 9 = ⟨.error e, []⟩) :=
  texture_shape_error_above_least_int ⟨0, 0⟩ 16 16 5 .None 0 1 true 7 9
    (by decide) (by decide) (Or.inr (Or.inl (by decide)))

/-! ## texture and renderbuffer: the least sample count -/

theorem ldiff_self (n : Nat) : Nat.ldiff n n = 0 := by
  apply Nat.eq_of_testBit_eq
  intro i
  simp [Nat.testBit_ldiff]

/-- The test `samples & (samples - 1)` on the least `int`: `samples - 1` wraps to the greatest
`int`, which shares no bit with it, so the test lets the value through. -/
theorem samples_invalid_least_int : samples_invalid (-2147483648) = false := by
  have hwrap : int32 (-2147483648 - 1) = 2147483647 := by decide
  have hland : Int.land (-2147483648) 2147483647 = 0 := by
    show ((Nat.ldiff 2147483647 2147483647 : Nat) : Int) = 0
    rw [ldiff_self]
    rfl
  unfold samples_invalid
  rw [hwrap, hland]
  decide

/-- C8 (the code at the failing input): the sample count 2147483648 of the caller is stored by
the `I` format as the least `int`, -2147483648, which is neither 0 nor a power of two.  The
test `samples & (samples - 1)` lets it through, and `texture` and `renderbuffer` do not fail:
each issues its driver calls, the allocation with that sample count included, and returns the
object. -/
theorem texture_created_with_least_int_samples :
    int32 2147483648 = -2147483648 ∧
    ¬ ((-2147483648 : Int) = 0 ∨ ∃ k : Nat, (-2147483648 : Int) = 2 ^ k) ∧
    MGLContext_texture ⟨0, 0⟩ 16 16 4 .None (-2147483648) 1 false 7 =
      ⟨.ok { texture_obj := 7, width := 16, height := 16, components := 4,
             samples := -2147483648, floats := false, depth := false, context := 0 },
        [.ActiveTexture 0, .GenTextures, .BindTexture .GL_TEXTURE_2D_MULTISAMPLE 7,
         .TexParameteri .GL_TEXTURE_2D_MULTISAMPLE .GL_TEXTURE_MIN_FILTER .GL_LINEAR,
         .TexParameteri .GL_TEXTURE_2D_MULTISAMPLE .GL_TEXTURE_MAG_FILTER .GL_LINEAR,
         .TexImage2DMultisample .GL_TEXTURE_2D_MULTISAMPLE (-2147483648) .GL_RGBA 16 16 true]⟩ ∧
    MGLContext_renderbuffer ⟨0, 0⟩ 16 16 4 (-2147483648) false 9 =
      ⟨.ok { renderbuffer_obj := 9, width := 16, height := 16, components := 4,
             samples := -2147483648, floats := false, depth := false, context := 0 },
        [.GenRenderbuffers, .BindRenderbuffer .GL_RENDERBUFFER 9,
         .RenderbufferStorageMultisample .GL_RENDERBUFFER (-2147483648) .GL_RGBA8UI 16 16]⟩ := by
  refine ⟨by decide, ?_, ?_, ?_⟩
  · rintro (h | ⟨k, hk⟩)
    · exact absurd h (by decide)
    · have : (0 : Int) < 2 ^ k := by positivity
      omega
  · simp [MGLContext_texture, samples_invalid_least_int, texture_expected_size, aligned_size,
      formats]
  · simp [MGLContext_renderbuffer, samples_invalid_least_int, renderbuffer_storage, int_formats]

/-! ## texture: the expected size -/

/-- C6 (as stated, refuted): for a width of -5 (the `int` read from 4294967291), one component,
byte elements and alignment 4, the smallest multiple of 4 that is at least `-5 * 1 * 1` is -4,
but the division of the source truncates towards zero and gives the row size 0: the expected
size is 0, not `-4 * 1`, and the call goes on to create the texture. -/
theorem texture_expected_size_negative_width :
    is_smallest_multiple_ge 4 (-5 * 1 * 1) (-4) ∧
    texture_expected_size (-5) 1 1 4 false = 0 ∧
    texture_expected_size (-5) 1 1 4 false ≠ -4 * 1 ∧
    (MGLContext_texture ⟨0, 0⟩ (-5) 1 1 .None 0 4 false 7).result =
      .ok { texture_obj := 7, width := -5, height := 1, components := 1, samples := 0,
            floats := false, depth := false, context := 0 } := by
  refine ⟨⟨by decide, by decide, ?_⟩, by decide, by decide, ?_⟩
  · intro m hm hle
    omega
  · simp [MGLContext_texture, samples_invalid_zero]

theorem aligned_size_eq (n alignment height r : Int)
    (ha : alignment = 1 ∨ alignment = 2 ∨ alignment = 4 ∨ alignment = 8)
    (hn : 0 ≤ n) (hrow : n + alignment - 1 < 2147483648)
    (hr : is_smallest_multiple_ge alignment n r) (hfit : isInt32 (r * height)) :
    aligned_size n alignment height = r * height := by
  obtain ⟨hdvd, hle, hmin⟩ := hr
  have key : int32 (Int.tdiv (int32 (int32 (n + alignment) - 1)) alignment * alignment) = r := by
    rcases ha with rfl | rfl | rfl | rfl
    · have e1 : int32 (int32 (n + 1) - 1) = n + 1 - 1 := by unfold int32; omega
      rw [e1, Int.tdiv_eq_ediv (by omega) (by omega)]
      have hm := hmin ((n + 1 - 1) / 1 * 1) (by omega) (by omega)
      unfold int32
      omega
    · have e1 : int32 (int32 (n + 2) - 1) = n + 2 - 1 := by unfold int32; omega
      rw [e1, Int.tdiv_eq_ediv (by omega) (by omega)]
      have hm := hmin ((n + 2 - 1) / 2 * 2) (by omega) (by omega)
      unfold int32
      omega
    · have e1 : int32 (int32 (n + 4) - 1) = n + 4 - 1 := by unfold int32; omega
      rw [e1, Int.tdiv_eq_ediv (by omega) (by omega)]
      have hm := hmin ((n + 4 - 1) / 4 * 4) (by omega) (by omega)
      unfold int32
      omega
    · have e1 : int32 (int32 (n + 8) - 1) = n + 8 - 1 := by unfold int32; omega
      rw [e1, Int.tdiv_eq_ediv (by omega) (by omega)]
      have hm := hmin ((n + 8 - 1) / 8 * 8) (by omega) (by omega)
      unfold int32
      omega
  unfold aligned_size
  simp only [key]
  exact int32_eq_self hfit

theorem texture_row_eq (width components : Int) (floats : Bool)
    (hc1 : 1 ≤ components) (hc4 : components ≤ 4) (hw : 0 ≤ width)
    (hrow : width * components * (if floats then 4 else 1) < 2147483648) :
    int32 (int32 (width * components) * (if floats then 4 else 1)) =
      width * components * (if floats then 4 else 1) := by
  have hc : components = 1 ∨ components = 2 ∨ components = 3 ∨ components = 4 := by omega
  rcases hc with rfl | rfl | rfl | rfl <;> cases floats <;>
    simp only [if_true, if_false, Bool.false_eq_true] at hrow ⊢ <;> unfold int32 <;> omega

/-- C6 (amended): for a width that is not negative, components in 1..4, alignment in {1,2,4,8}
and element size 4 (float) or 1 (byte), when nothing overflows the expected size is
`r * height`, `r` being the smallest multiple of the alignment that is at least
`width * components * element size`; data of another length is refused with the size-mismatch
error, which carries both sizes, before any driver call, and data of that length passes the
test: the texture is created if the driver gives a handle. -/
theorem texture_expected_size_aligned (self : MGLContext)
    (width height components alignment r : Int) (floats : Bool) (len : Nat) (texture_obj : Int)
    (hc1 : 1 ≤ components) (hc4 : components ≤ 4)
    (ha : alignment = 1 ∨ alignment = 2 ∨ alignment = 4 ∨ alignment = 8)
    (hw : 0 ≤ width)
    (hrow : width * components * (if floats then 4 else 1) + alignment - 1 < 2147483648)
    (hr : is_smallest_multiple_ge alignment (width * components * (if floats then 4 else 1)) r)
    (hfit : isInt32 (r * height)) :
    texture_expected_size width height components alignment floats = r * height ∧
    ((len : Int) ≠ r * height →
      MGLContext_texture self width height components (.bytes len) 0 alignment floats
        texture_obj = ⟨.error (.data_size_mismatch len (r * height)), []⟩) ∧
    ((len : Int) = r * height →
      (texture_obj = 0 →
        (MGLContext_texture self width height components (.bytes len) 0 alignment floats
          texture_obj).result = .error .cannot_create_texture) ∧
      (texture_obj ≠ 0 →
        (MGLContext_texture self width height components (.bytes len) 0 alignment floats
          texture_obj).result =
          .ok { texture_obj := texture_obj, width := width, height := height,
                components := components, samples := 0, floats := floats, depth := false,
                context := self.id })) := by
  have hn : 0 ≤ width * components * (if floats then 4 else 1) := by
    have : 0 ≤ width * components := Int.mul_nonneg hw (by omega)
    exact Int.mul_nonneg this (by split <;> decide)
  have hrow1 : width * components * (if floats then 4 else 1) < 2147483648 := by
    rcases ha with rfl | rfl | rfl | rfl <;> omega
  have hexp : texture_expected_size width height components alignment floats = r * height := by
    unfold texture_expected_size
    simp only [texture_row_eq width components floats hc1 hc4 hw hrow1]
    exact aligned_size_eq _ alignment height r ha hn hrow hr hfit
  have hc : ¬ (components < 1 ∨ components > 4) := by omega
  have hal : ¬ (alignment ≠ 1 ∧ alignment ≠ 2 ∧ alignment ≠ 4 ∧ alignment ≠ 8) := by
    rcases ha with rfl | rfl | rfl | rfl <;> decide
  refine ⟨hexp, ?_, ?_⟩
  · intro hne
    simp [MGLContext_texture, hc, hal, samples_invalid_zero, hexp, hne]
  · intro heq
    constructor
    · intro h0
      simp [MGLContext_texture, hc, hal, samples_invalid_zero, hexp, heq, h0]
    · intro h0
      simp [MGLContext_texture, hc, hal, samples_invalid_zero, hexp, heq, h0]

/-- A float texture 3 wide and 2 high with one component and alignment 8: rows of 12 bytes are
rounded up to 16, the expected size is 32, and data of 24 bytes is refused. -/
theorem texture_expected_size_aligned_witness :
    texture_expected_size 3 2 1 8 true = 16 * 2 ∧
    MGLContext_texture ⟨0, 0⟩ 3 2 1 (.bytes 24) 0 8 true 7 =
      ⟨.error (.data_size_mismatch (24 : Nat) (16 * 2)), []⟩ :=
  have h := texture_expected_size_aligned ⟨0, 0⟩ 3 2 1 8 16 true 24 7 (by decide) (by decide)
    (by decide) (by decide) (by decide)
    ⟨by decide, by decide, fun m hm hle => by simp only [if_true] at hle; omega⟩ (by decide)
  ⟨h.1, h.2.1 (by decide)⟩

/-! ## framebuffer -/

theorem check_color_attachments_tail (self : MGLContext) (items : List PyObject) :
    ∀ (i : Nat) (ref ref2 : Int × Int × Int), i ≠ 0 →
      check_color_attachments self i ref items = .ok ref2 →
      ref2 = ref ∧ ∀ item ∈ items, item.shape = some ref := by
  induction items with
  | nil =>
    intro i ref ref2 _ h
    simp only [check_color_attachments, Result.ok.injEq] at h
    exact ⟨h.symm, by simp⟩
  | cons item rest ih =>
    intro i ref ref2 hi h
    obtain ⟨width, height, samples⟩ := ref
    unfold check_color_attachments at h
    cases ha : item.attachment with
    | none => simp [ha] at h
    | some a =>
      simp only [ha] at h
      split_ifs at h with h1 h2
      obtain ⟨e, hrest⟩ := ih (i + 1) _ ref2 (by omega) h
      refine ⟨e, ?_⟩
      intro x hx
      rcases List.mem_cons.1 hx with rfl | hx
      · have hw : a.width = width ∧ a.height = height ∧ a.samples = samples := by
          by_contra hcon
          exact h1 ⟨hi, by tauto⟩
        simp [PyObject.shape, ha, hw.1, hw.2.1, hw.2.2]
      · exact hrest x hx

theorem check_color_attachments_ok (self : MGLContext) (first : PyObject)
    (rest : List PyObject) (ref0 ref : Int × Int × Int)
    (h : check_color_attachments self 0 ref0 (first :: rest) = .ok ref) :
    first.shape = some ref ∧ ∀ item ∈ rest, item.shape = some ref := by
  obtain ⟨width0, height0, samples0⟩ := ref0
  unfold check_color_attachments at h
  cases ha : first.attachment with
  | none => simp [ha] at h
  | some a =>
    simp only [ha] at h
    split_ifs at h with h1 h2
    obtain ⟨e, hrest⟩ := check_color_attachments_tail self rest 1 _ ref (by decide) h
    subst e
    exact ⟨by simp [PyObject.shape, ha], hrest⟩

theorem assemble_framebuffer_ok (self : MGLContext) (color_attachments : List PyObject)
    (depth_attachment : PyObject) (width height samples : Int) (gl : List GLCall)
    (draw_framebuffer framebuffer_obj status : Int) (fb : MGLFramebuffer)
    (h : (assemble_framebuffer self color_attachments depth_attachment width height samples gl
      draw_framebuffer framebuffer_obj status).result = .ok fb) :
    fb.color_attachments = color_attachments ∧ fb.depth_attachment = depth_attachment ∧
      fb.width = width ∧ fb.height = height ∧ fb.samples = samples := by
  unfold assemble_framebuffer at h
  simp only at h
  split_ifs at h
  simp only [Result.ok.injEq] at h
  subst h
  simp

theorem check_color_attachments_defined (self : MGLContext) (items : List PyObject) :
    ∀ (i : Nat) (ref : Int × Int × Int),
      check_color_attachments self i ref items ≠ .undefined := by
  induction items with
  | nil => intro i ref; simp [check_color_attachments]
  | cons item rest ih =>
    intro i ref
    obtain ⟨width, height, samples⟩ := ref
    unfold check_color_attachments
    cases ha : item.attachment with
    | none => simp
    | some a =>
      simp only
      split_ifs
      all_goals first | exact ih _ _ | simp

theorem assemble_framebuffer_defined (self : MGLContext) (color_attachments : List PyObject)
    (depth_attachment : PyObject) (width height samples : Int) (gl : List GLCall)
    (draw_framebuffer framebuffer_obj status : Int) :
    (assemble_framebuffer self color_attachments depth_attachment width height samples gl
      draw_framebuffer framebuffer_obj status).result ≠ .undefined := by
  unfold assemble_framebuffer
  simp only
  split_ifs <;> simp

/-- The model of `framebuffer` never leaves the behaviour open. -/
theorem framebuffer_defined (self : MGLContext) (color_attachments : List PyObject)
    (depth_attachment : PyObject)
    (renderbuffer_obj draw_framebuffer framebuffer_obj status : Int) :
    (MGLContext_framebuffer self color_attachments depth_attachment renderbuffer_obj
      draw_framebuffer framebuffer_obj status).result ≠ .undefined := by
  unfold MGLContext_framebuffer
  repeat' split
  all_goals first
    | exact assemble_framebuffer_defined _ _ _ _ _ _ _ _ _ _
    | (exfalso; exact check_color_attachments_defined _ _ _ _ (by assumption))
    | simp

/-- C5: when some color attachment after the first, or the depth attachment that is given,
differs from the first color attachment in width, height or samples, `framebuffer` fails; and
every framebuffer it returns keeps the color attachments it was given, all of them and its depth
attachment (given or synthesized) having the width, height and samples recorded on the
framebuffer. -/
theorem framebuffer_attachments_share_shape (self : MGLContext)
    (color_attachments : List PyObject) (depth_attachment : PyObject)
    (renderbuffer_obj draw_framebuffer framebuffer_obj status : Int) :
    ((∃ first rest, color_attachments = first :: rest ∧
        ((∃ item ∈ rest, item.shape ≠ first.shape) ∨
          (depth_attachment ≠ .None ∧ depth_attachment.shape ≠ first.shape))) →
      ∃ e, (MGLContext_framebuffer self color_attachments depth_attachment renderbuffer_obj
        draw_framebuffer framebuffer_obj status).result = .error e) ∧
    (∀ fb, (MGLContext_framebuffer self color_attachments depth_attachment renderbuffer_obj
        draw_framebuffer framebuffer_obj status).result = .ok fb →
      fb.color_attachments = color_attachments ∧
      (∀ item ∈ fb.color_attachments, item.shape = some (fb.width, fb.height, fb.samples)) ∧
      fb.depth_attachment.shape = some (fb.width, fb.height, fb.samples) ∧
      (depth_attachment ≠ .None → fb.depth_attachment = depth_attachment)) := by
  have hok : ∀ fb, (MGLContext_framebuffer self color_attachments depth_attachment
        renderbuffer_obj draw_framebuffer framebuffer_obj status).result = .ok fb →
      fb.color_attachments = color_attachments ∧
      (∀ item ∈ fb.color_attachments, item.shape = some (fb.width, fb.height, fb.samples)) ∧
      fb.depth_attachment.shape = some (fb.width, fb.height, fb.samples) ∧
      (depth_attachment ≠ .None → fb.depth_attachment = depth_attachment) := by
    intro fb h
    cases color_attachments with
    | nil => simp [MGLContext_framebuffer] at h
    | cons first rest =>
      unfold MGLContext_framebuffer at h
      simp only [List.length_cons, Nat.add_one_ne_zero, if_false] at h
      split at h
      · simp at h
      · simp at h
      · rename_i width height samples hc
        obtain ⟨hfirst, hrest⟩ := check_color_attachments_ok self first rest _ _ hc
        have hall : ∀ item ∈ first :: rest, item.shape = some (width, height, samples) := by
          intro x hx
          rcases List.mem_cons.1 hx with rfl | hx
          · exact hfirst
          · exact hrest x hx
        by_cases hd : depth_attachment = .None
        · simp only [hd, ne_eq, not_true_eq_false, if_false] at h
          split_ifs at h
          obtain ⟨h1, h2, h3, h4, h5⟩ := assemble_framebuffer_ok _ _ _ _ _ _ _ _ _ _ _ h
          rw [h1, h2, h3, h4, h5]
          exact ⟨rfl, hall, by simp [PyObject.shape, PyObject.attachment],
            fun hne => absurd hd hne⟩
        · simp only [ne_eq, hd, not_false_eq_true, if_true] at h
          cases ha : depth_attachment.attachment with
          | none => simp [ha] at h
          | some a =>
            simp only [ha] at h
            split_ifs at h with h1 h2
            obtain ⟨e1, e2, e3, e4, e5⟩ := assemble_framebuffer_ok _ _ _ _ _ _ _ _ _ _ _ h
            rw [e1, e2, e3, e4, e5]
            have hw : a.width = width ∧ a.height = height ∧ a.samples = samples := by
              by_contra hcon
              exact h2 (by tauto)
            exact ⟨rfl, hall, by simp [PyObject.shape, ha, hw.1, hw.2.1, hw.2.2], fun _ => rfl⟩
  refine ⟨?_, hok⟩
  rintro ⟨first, rest, rfl, hmis⟩
  cases hres : (MGLContext_framebuffer self (first :: rest) depth_attachment renderbuffer_obj
      draw_framebuffer framebuffer_obj status).result with
  | error e => exact ⟨e, rfl⟩
  | undefined =>
    exfalso
    exact framebuffer_defined _ _ _ _ _ _ _ hres
  | ok fb =>
    exfalso
    obtain ⟨h1, h2, h3, h4⟩ := hok fb hres
    rw [h1] at h2
    have hf := h2 first (List.mem_cons_self _ _)
    rcases hmis with ⟨item, hitem, hne⟩ | ⟨hd, hne⟩
    · exact hne ((h2 item (List.mem_cons_of_mem _ hitem)).trans hf.symm)
    · rw [h4 hd] at h3
      exact hne (h3.trans hf.symm)


/-- A 64x64 texture followed by a 32x32 texture: the framebuffer is refused. -/
theorem framebuffer_attachments_share_shape_witness :
    ∃ e, (MGLContext_framebuffer ⟨0, 0⟩
      [.Texture ⟨1, 64, 64, 4, 0, false, false, 0⟩, .Texture ⟨2, 32, 32, 4, 0, false, false, 0⟩]
      .None 3 0 5 0x8CD5).result = .error e :=
  (framebuffer_attachments_share_shape ⟨0, 0⟩
    [.Texture ⟨1, 64, 64, 4, 0, false, false, 0⟩, .Texture ⟨2, 32, 32, 4, 0, false, false, 0⟩]
    .None 3 0 5 0x8CD5).1
    ⟨_, _, rfl, Or.inl ⟨.Texture ⟨2, 32, 32, 4, 0, false, false, 0⟩, by simp, by decide⟩⟩

/-! ## vertex_array: the validation pass -/

theorem next_node_non_padding :
    ∀ (it : List FormatNode) (node : FormatNode) (rest : List FormatNode),
      next_node it = some (node, rest) → non_padding it = node :: non_padding rest := by
  intro it
  induction it with
  | nil => intro node rest h; simp [next_node] at h
  | cons n ns ih =>
    intro node rest h
    unfold next_node at h
    by_cases hx : n.shape = 'x'
    · simp only [hx, if_true] at h
      simp [non_padding, hx, List.filter_cons] at *
      exact ih node rest h
    · simp only [hx, if_false, Option.some.injEq, Prod.mk.injEq] at h
      obtain ⟨rfl, rfl⟩ := h
      simp [non_padding, hx, List.filter_cons]

theorem next_node_eq_none :
    ∀ (it : List FormatNode), next_node it = none → non_padding it = [] := by
  intro it
  induction it with
  | nil => intro _; rfl
  | cons n ns ih =>
    intro h
    unfold next_node at h
    by_cases hx : n.shape = 'x'
    · simp only [hx, if_true] at h
      simp [non_padding, hx, List.filter_cons] at *
      exact ih h
    · simp [hx] at h

/-- What the loop over the attribute names has established when it ends without error. -/
theorem check_attributes_ok (program : MGLProgram) (i : Nat) :
    ∀ (attrs : List PyObject) (j : Nat) (it : List FormatNode),
      check_attributes program i j attrs it = .ok () →
      ∀ k, k < attrs.length → ∃ name attrib node,
        attrs[k]? = some (.Unicode name) ∧ program.attributes (c_str name) = some attrib ∧
        (non_padding it)[k]? = some node ∧
        int32 (attrib.dimension * attrib.array_length) = node.count ∧
        attrib.shape = node.shape := by
  intro attrs
  induction attrs with
  | nil => intro j it _ k hk; simp at hk
  | cons a rest ih =>
    intro j it h k hk
    unfold check_attributes at h
    cases a with
    | Unicode name =>
      simp only at h
      cases hn : next_node it with
      | none => simp [hn] at h
      | some p =>
        obtain ⟨node, it2⟩ := p
        simp only [hn] at h
        cases hattr : program.attributes (c_str name) with
        | none => simp [hattr] at h
        | some attrib =>
          simp only [hattr] at h
          split_ifs at h with h1 h2
          have hnp := next_node_non_padding it node it2 hn
          cases k with
          | zero =>
            refine ⟨name, attrib, node, by simp, hattr, by simp [hnp], ?_, ?_⟩
            · exact not_not.1 h1
            · exact not_not.1 h2
          | succ k =>
            obtain ⟨name2, attrib2, node2, e1, e2, e3, e4, e5⟩ :=
              ih (j + 1) it2 h k (by simpa using hk)
            exact ⟨name2, attrib2, node2, by simpa using e1, e2, by simpa [hnp] using e3, e4, e5⟩
    | None => simp at h
    | Buffer b => simp at h
    | Texture t => simp at h
    | Renderbuffer r => simp at h
    | Other n c => simp at h

theorem check_attributes_defined (program : MGLProgram) (i : Nat) :
    ∀ (attrs : List PyObject) (j : Nat) (it : List FormatNode),
      attrs.length ≤ (non_padding it).length →
      check_attributes program i j attrs it ≠ .undefined := by
  intro attrs
  induction attrs with
  | nil => intro j it _; simp [check_attributes]
  | cons a rest ih =>
    intro j it hlen
    unfold check_attributes
    cases a with
    | Unicode name =>
      simp only
      cases hn : next_node it with
      | none =>
        have := next_node_eq_none it hn
        simp [this] at hlen
      | some p =>
        obtain ⟨node, it2⟩ := p
        have hnp := next_node_non_padding it node it2 hn
        simp only
        cases hattr : program.attributes (c_str name) with
        | none => simp
        | some attrib =>
          simp only
          split_ifs
          · simp
          · simp
          · exact ih (j + 1) it2 (by simpa [hnp] using hlen)
    | None => simp
    | Buffer b => simp
    | Texture t => simp
    | Renderbuffer r => simp
    | Other n c => simp

/-- What the tests on one content entry have established when they all pass. -/
theorem check_content_tuple_ok (self : MGLContext) (program : MGLProgram)
    (parse : String → FormatIterator) (i : Nat) (tuple : ContentTuple)
    (h : check_content_tuple self program parse i tuple = .ok ()) :
    ∃ buffer format, tuple.buffer = .Buffer buffer ∧ tuple.format = .Unicode format ∧
      buffer.context = self.id ∧ (parse format).info.valid = true ∧
      (i = 0 → (parse format).info.divisor = 0) ∧
      tuple.attributes.length ≠ 0 ∧
      (tuple.attributes.length : Int) = (parse format).info.nodes ∧
      check_attributes program i 0 tuple.attributes (parse format).nodes = .ok () := by
  unfold check_content_tuple at h
  cases hb : tuple.buffer with
  | Buffer buffer =>
    cases hf : tuple.format with
    | Unicode format =>
      simp only [hb, hf] at h
      split_ifs at h with h1 h2 h3 h4 h5
      refine ⟨buffer, format, rfl, rfl, not_not.1 h1, by simpa using h2, ?_, ?_, ?_, h⟩
      · intro hi
        by_contra hd
        exact h3 ⟨hi, hd⟩
      · intro hl
        exact h4 (by simp [hl])
      · exact not_not.1 h5
    | None => simp [hb, hf] at h
    | Buffer b => simp [hb, hf] at h
    | Texture t => simp [hb, hf] at h
    | Renderbuffer r => simp [hb, hf] at h
    | Other n c => simp [hb, hf] at h
  | None => simp [hb] at h
  | Unicode u => simp [hb] at h
  | Texture t => simp [hb] at h
  | Renderbuffer r => simp [hb] at h
  | Other n c => simp [hb] at h

theorem check_content_cons (self : MGLContext) (program : MGLProgram)
    (parse : String → FormatIterator) (i : Nat) (t : ContentTuple) (rest : List ContentTuple)
    (h : check_content self program parse i (t :: rest) = .ok ()) :
    check_content_tuple self program parse i t = .ok () ∧
      check_content self program parse (i + 1) rest = .ok () := by
  unfold check_content at h
  cases ht : check_content_tuple self program parse i t with
  | ok u => simp only [ht] at h; exact ⟨rfl, h⟩
  | error e => simp [ht] at h
  | undefined => simp [ht] at h

theorem check_content_ok (self : MGLContext) (program : MGLProgram)
    (parse : String → FormatIterator) :
    ∀ (content : List ContentTuple) (i : Nat),
      check_content self program parse i content = .ok () →
      ∀ tuple ∈ content, ∃ k, check_content_tuple self program parse k tuple = .ok () := by
  intro content
  induction content with
  | nil => intro i _ tuple ht; simp at ht
  | cons t rest ih =>
    intro i h tuple ht
    obtain ⟨h1, h2⟩ := check_content_cons self program parse i t rest h
    rcases List.mem_cons.1 ht with rfl | ht
    · exact ⟨i, h1⟩
    · exact ih (i + 1) h2 tuple ht

theorem vertex_array_validate_ok (self : MGLContext) (program : MGLProgram)
    (parse : String → FormatIterator) (content : List ContentTuple) (index_buffer : PyObject)
    (h : vertex_array_validate self program parse content index_buffer = .ok ()) :
    program.context = self.id ∧ content ≠ [] ∧
      check_content self program parse 0 content = .ok () := by
  unfold vertex_array_validate at h
  split_ifs at h with h1 h2 h3 h4
  refine ⟨not_not.1 h1, ?_, ?_⟩
  · intro hc
    exact h4 (by simp [hc])
  · cases hc : check_content self program parse 0 content with
    | ok u => rfl
    | error e => simp [hc] at h
    | undefined => simp [hc] at h

theorem vertex_array_ok_validate (self : MGLContext) (program : MGLProgram)
    (parse : String → FormatIterator) (content : List ContentTuple) (index_buffer : PyObject)
    (vertex_array_obj : Int) (vao : MGLVertexArray)
    (h : (MGLContext_vertex_array self program parse content index_buffer
      vertex_array_obj).result = .ok vao) :
    vertex_array_validate self program parse content index_buffer = .ok () := by
  unfold MGLContext_vertex_array at h
  cases hv : vertex_array_validate self program parse content index_buffer with
  | ok u => rfl
  | error e => simp [hv] at h
  | undefined => simp [hv] at h

/-- For the names that have no NUL, what the validation pass looks up is the name: content it
accepts has, at every such name, an attribute of the table that matches the node. -/
theorem attribute_matches_of_ok (self : MGLContext) (program : MGLProgram)
    (parse : String → FormatIterator) (content : List ContentTuple) (index_buffer : PyObject)
    (h : vertex_array_validate self program parse content index_buffer = .ok ())
    (tuple : ContentTuple) (ht : tuple ∈ content) (j : Nat) (hj : j < tuple.attributes.length)
    (hnul : ∀ name, tuple.attributes[j]? = some (.Unicode name) → c_str name = name) :
    attribute_matches program parse tuple j = true := by
  obtain ⟨_, _, hc⟩ := vertex_array_validate_ok self program parse content index_buffer h
  obtain ⟨k, htuple⟩ := check_content_ok self program parse content 0 hc tuple ht
  obtain ⟨buffer, format, hb, hf, _, _, _, _, _, hattrs⟩ :=
    check_content_tuple_ok self program parse _ _ htuple
  obtain ⟨name, attrib, node, e1, e2, e3, e4, e5⟩ :=
    check_attributes_ok program _ _ 0 _ hattrs j hj
  rw [hnul name e1] at e2
  unfold attribute_matches
  simp [hf, e1, e2, e3, e4, e5]

/-! The validation pass decides: with a parser whose node count is the number of non-padding
nodes, and an index buffer whose context can be read, it ends with `ok` or with an error. -/

theorem check_content_tuple_defined (self : MGLContext) (program : MGLProgram)
    (parse : String → FormatIterator)
    (hparse : ∀ s, (parse s).info.nodes = ((non_padding (parse s).nodes).length : Int))
    (i : Nat) (tuple : ContentTuple) :
    check_content_tuple self program parse i tuple ≠ .undefined := by
  unfold check_content_tuple
  cases hb : tuple.buffer with
  | Buffer buffer =>
    cases hf : tuple.format with
    | Unicode format =>
      simp only
      split_ifs with h1 h2 h3 h4 h5
      all_goals first
        | (apply check_attributes_defined
           have h6 : (tuple.attributes.length : Int) = (parse format).info.nodes := not_not.1 h5
           rw [hparse format] at h6
           have : tuple.attributes.length = (non_padding (parse format).nodes).length := by
             exact_mod_cast h6
           omega)
        | simp
    | None => simp
    | Buffer b => simp
    | Texture t => simp
    | Renderbuffer r => simp
    | Other n c => simp
  | None => simp
  | Unicode u => simp
  | Texture t => simp
  | Renderbuffer r => simp
  | Other n c => simp

theorem check_content_defined (self : MGLContext) (program : MGLProgram)
    (parse : String → FormatIterator)
    (hparse : ∀ s, (parse s).info.nodes = ((non_padding (parse s).nodes).length : Int)) :
    ∀ (content : List ContentTuple) (i : Nat),
      check_content self program parse i content ≠ .undefined := by
  intro content
  induction content with
  | nil => intro i; simp [check_content]
  | cons t rest ih =>
    intro i
    unfold check_content
    cases ht : check_content_tuple self program parse i t with
    | ok u => simpa using ih (i + 1)
    | error e => simp
    | undefined => exact absurd ht (check_content_tuple_defined self program parse hparse i t)

theorem vertex_array_validate_defined (self : MGLContext) (program : MGLProgram)
    (parse : String → FormatIterator)
    (hparse : ∀ s, (parse s).info.nodes = ((non_padding (parse s).nodes).length : Int))
    (content : List ContentTuple) (index_buffer : PyObject)
    (hindex : index_buffer = .None ∨ index_buffer_context index_buffer ≠ none) :
    vertex_array_validate self program parse content index_buffer ≠ .undefined := by
  unfold vertex_array_validate
  have hc := check_content_defined self program parse hparse content 0
  split_ifs with h1 h2 h3 h4
  · simp
  · rcases hindex with h | h
    · exact absurd h h2.1
    · exact absurd h2.2 h
  · simp
  · simp
  · cases hcc : check_content self program parse 0 content with
    | ok u => cases index_buffer <;> simp
    | error e => simp
    | undefined => exact absurd hcc hc

/-! ## vertex_array: the vertex count -/

theorem next_node_ptr_of_next_node :
    ∀ (it : List FormatNode) (ptr : Int) (node : FormatNode) (rest : List FormatNode),
      next_node it = some (node, rest) →
      ∃ ptr2, next_node_ptr ptr it = some (node, ptr2, rest) := by
  intro it
  induction it with
  | nil => intro ptr node rest h; simp [next_node] at h
  | cons n ns ih =>
    intro ptr node rest h
    unfold next_node at h
    unfold next_node_ptr
    by_cases hx : n.shape = 'x'
    · simp only [hx, if_true] at h ⊢
      exact ih _ node rest h
    · simp only [hx, if_false, Option.some.injEq, Prod.mk.injEq] at h
      obtain ⟨rfl, rfl⟩ := h
      exact ⟨ptr, by simp [hx]⟩

/-- The binding pass does not run off a format the validation pass went through, and it finds
the attributes the validation pass found, when no name has a NUL: the key of the binding pass is
then the key of the validation pass. -/
theorem bind_attributes_of_check (program : MGLProgram) (format_info : FormatInfo) (i : Nat) :
    ∀ (attrs : List PyObject) (j : Nat) (it : List FormatNode) (ptr : Int),
      (∀ name, PyObject.Unicode name ∈ attrs → c_str name = name) →
      check_attributes program i j attrs it = .ok () →
      ∃ calls, bind_attributes program format_info attrs ptr it = .ok calls := by
  intro attrs
  induction attrs with
  | nil => intro j it ptr _ _; exact ⟨[], by simp [bind_attributes]⟩
  | cons a rest ih =>
    intro j it ptr hnul h
    unfold check_attributes at h
    cases a with
    | Unicode name =>
      simp only at h
      have hname : c_str name = name := hnul name (List.mem_cons_self _ _)
      rw [hname] at h
      cases hn : next_node it with
      | none => simp [hn] at h
      | some p =>
        obtain ⟨node, it2⟩ := p
        simp only [hn] at h
        cases hattr : program.attributes name with
        | none => simp [hattr] at h
        | some attrib =>
          simp only [hattr] at h
          split_ifs at h with h1 h2
          obtain ⟨ptr2, hp⟩ := next_node_ptr_of_next_node it ptr node it2 hn
          obtain ⟨more, hmore⟩ := ih (j + 1) it2
            (bind_rows attrib format_info attrib.rows_length.toNat 0 ptr2).1
            (fun n hn2 => hnul n (List.mem_cons_of_mem _ hn2)) h
          refine ⟨(bind_rows attrib format_info attrib.rows_length.toNat 0 ptr2).2 ++ more, ?_⟩
          unfold bind_attributes
          simp only [hp, hattr, hmore]
    | None => simp at h
    | Buffer b => simp at h
    | Texture t => simp at h
    | Renderbuffer r => simp at h
    | Other n c => simp at h

theorem foldl_min_le (l : List Int) : ∀ a : Int, l.foldl min a ≤ a ∧ ∀ x ∈ l, l.foldl min a ≤ x := by
  induction l with
  | nil => intro a; simp
  | cons y ys ih =>
    intro a
    obtain ⟨h1, h2⟩ := ih (min a y)
    simp only [List.foldl_cons]
    refine ⟨le_trans h1 (min_le_left _ _), ?_⟩
    intro x hx
    rcases List.mem_cons.1 hx with rfl | hx
    · exact le_trans h1 (min_le_right _ _)
    · exact h2 x hx

theorem foldl_min_mem (l : List Int) : ∀ a : Int, l.foldl min a = a ∨ l.foldl min a ∈ l := by
  induction l with
  | nil => intro a; simp
  | cons y ys ih =>
    intro a
    simp only [List.foldl_cons]
    rcases ih (min a y) with h | h
    · rcases min_choice a y with hm | hm
      · left; rw [h, hm]
      · right; rw [h, hm]; exact List.mem_cons_self _ _
    · right; exact List.mem_cons_of_mem _ h

/-- The binding loop past its first entry, without index buffer: the count is the running
minimum over the entries whose divisor is 0. -/
theorem bind_content_tail (self : MGLContext) (program : MGLProgram)
    (parse : String → FormatIterator) :
    ∀ (content : List ContentTuple) (i : Nat) (num_vertices : Int), i ≠ 0 →
      (∀ tuple ∈ content, ∃ k, check_content_tuple self program parse k tuple = .ok ()) →
      (∀ tuple ∈ content, ∀ format, tuple.format = .Unicode format →
        (parse format).info.size ≠ 0) →
      (∀ tuple ∈ content, ∀ name, PyObject.Unicode name ∈ tuple.attributes →
        c_str name = name) →
      ∃ calls, bind_content program parse false i num_vertices content =
        .ok ((((content.filter fun t => t.divisor parse = 0).map
          (ContentTuple.buf_vertices parse)).foldl min num_vertices), calls) := by
  intro content
  induction content with
  | nil => intro i nv _ _ _ _; exact ⟨[], by simp [bind_content]⟩
  | cons t rest ih =>
    intro i nv hi hok hsize hnul
    obtain ⟨k, hk⟩ := hok t (List.mem_cons_self _ _)
    obtain ⟨buffer, format, hb, hf, _, _, _, _, _, hattrs⟩ :=
      check_content_tuple_ok self program parse k t hk
    have hs := hsize t (List.mem_cons_self _ _) format hf
    obtain ⟨calls, hcalls⟩ := bind_attributes_of_check program (parse format).info k
      t.attributes 0 (parse format).nodes 0 (hnul t (List.mem_cons_self _ _)) hattrs
    have hdiv : t.divisor parse = (parse format).info.divisor := by
      simp [ContentTuple.divisor, hf]
    have hq : t.buf_vertices parse = Int.tdiv buffer.size (parse format).info.size := by
      simp [ContentTuple.buf_vertices, hb, hf]
    obtain ⟨more, hmore⟩ := ih (i + 1)
      (if (parse format).info.divisor = 0 ∧ false = false ∧
          (i = 0 ∨ nv > Int.tdiv buffer.size (parse format).info.size)
        then Int.tdiv buffer.size (parse format).info.size else nv) (by omega)
      (fun x hx => hok x (List.mem_cons_of_mem _ hx))
      (fun x hx => hsize x (List.mem_cons_of_mem _ hx))
      (fun x hx => hnul x (List.mem_cons_of_mem _ hx))
    refine ⟨[.BindBuffer .GL_ARRAY_BUFFER buffer.buffer_obj] ++ calls ++ more, ?_⟩
    have hfold : ((((t :: rest).filter fun t => t.divisor parse = 0).map
          (ContentTuple.buf_vertices parse)).foldl min nv) =
        (((rest.filter fun t => t.divisor parse = 0).map
          (ContentTuple.buf_vertices parse)).foldl min
          (if (parse format).info.divisor = 0 ∧ false = false ∧
              (i = 0 ∨ nv > Int.tdiv buffer.size (parse format).info.size)
            then Int.tdiv buffer.size (parse format).info.size else nv)) := by
      by_cases hd : (parse format).info.divisor = 0
      · have h0 : t.divisor parse = 0 := by rw [hdiv, hd]
        have hnv : (if (parse format).info.divisor = 0 ∧ false = false ∧
              (i = 0 ∨ nv > Int.tdiv buffer.size (parse format).info.size)
            then Int.tdiv buffer.size (parse format).info.size else nv) =
            min nv (Int.tdiv buffer.size (parse format).info.size) := by
          by_cases h1 : nv > Int.tdiv buffer.size (parse format).info.size
          · rw [if_pos ⟨hd, rfl, Or.inr h1⟩]
            exact (min_eq_right (le_of_lt h1)).symm
          · rw [if_neg (by rintro ⟨_, _, h | h⟩; exact hi h; exact h1 h)]
            exact (min_eq_left (not_lt.1 h1)).symm
        rw [hnv]
        simp [List.filter_cons, h0, hq]
      · have h0 : ¬ t.divisor parse = 0 := by rw [hdiv]; exact hd
        rw [if_neg (fun h => hd h.1)]
        simp [List.filter_cons, h0]
    rw [hfold]
    unfold bind_content
    simp only [hb, hf]
    rw [if_neg hs]
    simp only [hcalls]
    simp only [eq_self] at hmore
    rw [hmore]

/-- The binding loop from its first entry, without index buffer, on content the validation pass
accepted. -/
theorem bind_content_first (self : MGLContext) (program : MGLProgram)
    (parse : String → FormatIterator) (first : ContentTuple) (rest : List ContentTuple)
    (num_vertices : Int)
    (hcheck : check_content self program parse 0 (first :: rest) = .ok ())
    (hsize : ∀ tuple ∈ first :: rest, ∀ format, tuple.format = .Unicode format →
      (parse format).info.size ≠ 0)
    (hnul : ∀ tuple ∈ first :: rest, ∀ name, PyObject.Unicode name ∈ tuple.attributes →
      c_str name = name) :
    first.divisor parse = 0 ∧
    ∃ calls, bind_content program parse false 0 num_vertices (first :: rest) =
      .ok ((((rest.filter fun t => t.divisor parse = 0).map
        (ContentTuple.buf_vertices parse)).foldl min (first.buf_vertices parse)), calls) := by
  obtain ⟨h1, h2⟩ := check_content_cons self program parse 0 first rest hcheck
  obtain ⟨buffer, format, hb, hf, _, _, hd, _, _, hattrs⟩ :=
    check_content_tuple_ok self program parse 0 first h1
  have hd0 : (parse format).info.divisor = 0 := hd rfl
  have hs := hsize first (List.mem_cons_self _ _) format hf
  obtain ⟨calls, hcalls⟩ := bind_attributes_of_check program (parse format).info 0
    first.attributes 0 (parse format).nodes 0 (hnul first (List.mem_cons_self _ _)) hattrs
  have hdiv : first.divisor parse = 0 := by
    simp [ContentTuple.divisor, hf, hd0]
  have hq : first.buf_vertices parse = Int.tdiv buffer.size (parse format).info.size := by
    simp [ContentTuple.buf_vertices, hb, hf]
  obtain ⟨more, hmore⟩ := bind_content_tail self program parse rest 1
    (Int.tdiv buffer.size (parse format).info.size) (by decide)
    (check_content_ok self program parse rest 1 h2)
    (fun x hx => hsize x (List.mem_cons_of_mem _ hx))
    (fun x hx => hnul x (List.mem_cons_of_mem _ hx))
  refine ⟨hdiv, [.BindBuffer .GL_ARRAY_BUFFER buffer.buffer_obj] ++ calls ++ more, ?_⟩
  rw [hq]
  unfold bind_content
  simp only [hb, hf]
  rw [if_neg hs]
  simp only [hcalls]
  rw [if_pos ⟨hd0, trivial, Or.inl trivial⟩]
  rw [hmore]

/-- One step of the count past the first entry: the test of line 733 keeps the running minimum
over the entries whose divisor is 0. -/
theorem count_step (parse : String → FormatIterator) (t : ContentTuple)
    (rest : List ContentTuple) (buffer : MGLBuffer) (format : String)
    (hb : t.buffer = .Buffer buffer) (hf : t.format = .Unicode format)
    (i : Nat) (hi : i ≠ 0) (nv : Int) :
    ((((t :: rest).filter fun t => t.divisor parse = 0).map
        (ContentTuple.buf_vertices parse)).foldl min nv) =
      (((rest.filter fun t => t.divisor parse = 0).map
        (ContentTuple.buf_vertices parse)).foldl min
        (if (parse format).info.divisor = 0 ∧ false = false ∧
            (i = 0 ∨ nv > Int.tdiv buffer.size (parse format).info.size)
          then Int.tdiv buffer.size (parse format).info.size else nv)) := by
  have hdiv : t.divisor parse = (parse format).info.divisor := by
    simp [ContentTuple.divisor, hf]
  have hq : t.buf_vertices parse = Int.tdiv buffer.size (parse format).info.size := by
    simp [ContentTuple.buf_vertices, hb, hf]
  by_cases hd : (parse format).info.divisor = 0
  · have h0 : t.divisor parse = 0 := by rw [hdiv, hd]
    have hnv : (if (parse format).info.divisor = 0 ∧ false = false ∧
          (i = 0 ∨ nv > Int.tdiv buffer.size (parse format).info.size)
        then Int.tdiv buffer.size (parse format).info.size else nv) =
        min nv (Int.tdiv buffer.size (parse format).info.size) := by
      by_cases h1 : nv > Int.tdiv buffer.size (parse format).info.size
      · rw [if_pos ⟨hd, rfl, Or.inr h1⟩]
        exact (min_eq_right (le_of_lt h1)).symm
      · rw [if_neg (by rintro ⟨_, _, h | h⟩; exact hi h; exact h1 h)]
        exact (min_eq_left (not_lt.1 h1)).symm
    rw [hnv]
    simp [List.filter_cons, h0, hq]
  · have h0 : ¬ t.divisor parse = 0 := by rw [hdiv]; exact hd
    rw [if_neg (fun h => hd h.1)]
    simp [List.filter_cons, h0]

/-- The count the binding loop returns past its first entry, without index buffer, whenever it
returns one. -/
theorem bind_content_count (program : MGLProgram) (parse : String → FormatIterator) :
    ∀ (content : List ContentTuple) (i : Nat) (num_vertices n : Int) (calls : List GLCall),
      i ≠ 0 →
      bind_content program parse false i num_vertices content = .ok (n, calls) →
      n = (((content.filter fun t => t.divisor parse = 0).map
        (ContentTuple.buf_vertices parse)).foldl min num_vertices) := by
  intro content
  induction content with
  | nil =>
    intro i nv n calls _ h
    simp only [bind_content, Result.ok.injEq, Prod.mk.injEq] at h
    simpa using h.1.symm
  | cons t rest ih =>
    intro i nv n calls hi h
    unfold bind_content at h
    split at h
    · rename_i buffer format hb hf
      rw [count_step parse t rest buffer format hb hf i hi nv]
      dsimp only at h
      by_cases hs : (parse format).info.size = 0
      · rw [if_pos hs] at h
        simp at h
      · rw [if_neg hs] at h
        split at h
        · simp at h
        · simp at h
        · split at h
          · rename_i n2 more hrest
            simp only [Result.ok.injEq, Prod.mk.injEq] at h
            rw [← h.1]
            exact ih _ _ _ _ (by omega) hrest
          · simp at h
          · simp at h
    · simp at h

/-- The count the binding loop returns from its first entry, without index buffer, whenever it
returns one on content whose first entry passed the tests of the validation pass. -/
theorem bind_content_first_count (self : MGLContext) (program : MGLProgram)
    (parse : String → FormatIterator) (first : ContentTuple) (rest : List ContentTuple)
    (num_vertices n : Int) (calls : List GLCall)
    (hcheck : check_content_tuple self program parse 0 first = .ok ())
    (h : bind_content program parse false 0 num_vertices (first :: rest) = .ok (n, calls)) :
    first.divisor parse = 0 ∧
    n = (((rest.filter fun t => t.divisor parse = 0).map
      (ContentTuple.buf_vertices parse)).foldl min (first.buf_vertices parse)) := by
  obtain ⟨buffer, format, hb, hf, _, _, hd, _, _, _⟩ :=
    check_content_tuple_ok self program parse 0 first hcheck
  have hd0 : (parse format).info.divisor = 0 := hd rfl
  have hdiv : first.divisor parse = 0 := by
    simp [ContentTuple.divisor, hf, hd0]
  have hq : first.buf_vertices parse = Int.tdiv buffer.size (parse format).info.size := by
    simp [ContentTuple.buf_vertices, hb, hf]
  refine ⟨hdiv, ?_⟩
  rw [hq]
  unfold bind_content at h
  rw [hb, hf] at h
  dsimp only at h
  by_cases hs : (parse format).info.size = 0
  · rw [if_pos hs] at h
    simp at h
  · rw [if_neg hs, if_pos ⟨hd0, rfl, Or.inl rfl⟩] at h
    split at h
    · simp at h
    · simp at h
    · split at h
      · rename_i n2 more hrest
        simp only [Result.ok.injEq, Prod.mk.injEq] at h
        rw [← h.1]
        exact bind_content_count program parse rest 1 _ _ _ (by decide) hrest
      · simp at h
      · simp at h

/-- C1: for content the validation pass accepts, with no index buffer, the vertex count of the
vertex array `vertex_array` returns is the minimum of `buffer size / format size` over the
entries whose format has divisor 0: it is the quotient of one of them and at most the quotient
of each, and the entries with another divisor do not appear in it.  A vertex array is returned
as soon as the driver gives a handle, the formats have a non-zero size (line 731 divides by it)
and no attribute name has a NUL (line 751 looks the whole name up and line 753 dereferences
what it finds). -/
theorem vertex_array_num_vertices_min (self : MGLContext) (program : MGLProgram)
    (parse : String → FormatIterator) (content : List ContentTuple) (vertex_array_obj : Int)
    (hvalid : vertex_array_validate self program parse content .None = .ok ()) :
    (∀ vao, (MGLContext_vertex_array self program parse content .None vertex_array_obj).result =
        .ok vao →
      ((content.filter fun t => t.divisor parse = 0).map
        (ContentTuple.buf_vertices parse)).min? = some vao.num_vertices ∧
      (∃ tuple ∈ content, tuple.divisor parse = 0 ∧
        vao.num_vertices = tuple.buf_vertices parse) ∧
      (∀ tuple ∈ content, tuple.divisor parse = 0 →
        vao.num_vertices ≤ tuple.buf_vertices parse)) ∧
    (vertex_array_obj ≠ 0 →
      (∀ tuple ∈ content, ∀ format, tuple.format = .Unicode format →
        (parse format).info.size ≠ 0) →
      (∀ tuple ∈ content, ∀ name, PyObject.Unicode name ∈ tuple.attributes →
        c_str name = name) →
      ∃ vao, (MGLContext_vertex_array self program parse content .None vertex_array_obj).result =
        .ok vao) := by
  obtain ⟨_, hne, hcheck⟩ := vertex_array_validate_ok self program parse content .None hvalid
  cases content with
  | nil => exact absurd rfl hne
  | cons first rest =>
    refine ⟨?_, ?_⟩
    · intro vao hvao
      have hfirst := (check_content_cons self program parse 0 first rest hcheck).1
      have hnum : first.divisor parse = 0 ∧
          vao.num_vertices = (((rest.filter fun t => t.divisor parse = 0).map
            (ContentTuple.buf_vertices parse)).foldl min (first.buf_vertices parse)) := by
        unfold MGLContext_vertex_array at hvao
        simp only [hvalid] at hvao
        split_ifs at hvao
        · simp only [ne_eq, not_true_eq_false, decide_False] at hvao
          split at hvao
          · simp at hvao
          · simp at hvao
          · rename_i n calls hbind
            simp only [Result.ok.injEq] at hvao
            rw [← hvao]
            exact bind_content_first_count self program parse first rest _ n calls hfirst hbind
      obtain ⟨hdiv, hn⟩ := hnum
      rw [hn]
      refine ⟨?_, ?_, ?_⟩
      · simp only [List.filter_cons, hdiv, decide_True, if_true, List.map_cons,
          List.min?_cons']
      · rcases foldl_min_mem ((rest.filter fun t => t.divisor parse = 0).map
          (ContentTuple.buf_vertices parse)) (first.buf_vertices parse) with h | h
        · exact ⟨first, List.mem_cons_self _ _, hdiv, h⟩
        · obtain ⟨t, ht, hteq⟩ := List.mem_map.1 h
          obtain ⟨htm, htd⟩ := List.mem_filter.1 ht
          exact ⟨t, List.mem_cons_of_mem _ htm, by simpa using htd, hteq.symm⟩
      · intro tuple ht hd
        obtain ⟨hle1, hle2⟩ := foldl_min_le ((rest.filter fun t => t.divisor parse = 0).map
          (ContentTuple.buf_vertices parse)) (first.buf_vertices parse)
        rcases List.mem_cons.1 ht with rfl | ht
        · exact hle1
        · exact hle2 _ (List.mem_map.2 ⟨tuple, List.mem_filter.2 ⟨ht, by simpa using hd⟩, rfl⟩)
    · intro hobj hsize hnul
      obtain ⟨_, calls, hbind⟩ := bind_content_first self program parse first rest (-1)
        hcheck hsize hnul
      refine ⟨{ program := program, index_buffer := .None, vertex_array_obj := vertex_array_obj,
                num_vertices := (((rest.filter fun t => t.divisor parse = 0).map
                  (ContentTuple.buf_vertices parse)).foldl min (first.buf_vertices parse)),
                context := self.id }, ?_⟩
      unfold MGLContext_vertex_array
      simp only [hvalid, if_neg hobj, ne_eq, not_true_eq_false, decide_False, hbind]

/-! ## vertex_array: examples -/

/-- The example content, no index buffer: buffers for 100 and 80 vertices and a per-instance
buffer give a vertex array, and its count is 80. -/
theorem vertex_array_num_vertices_min_witness :
    ∃ vao, (MGLContext_vertex_array ⟨0, 0⟩ demo_program demo_parse demo_content .None 9).result =
      .ok vao ∧ vao.num_vertices = 80 := by
  have hC1 := vertex_array_num_vertices_min ⟨0, 0⟩ demo_program demo_parse demo_content 9
    (by decide)
  obtain ⟨vao, hvao⟩ := hC1.2 (by decide)
    (by
      intro tuple ht format hf
      simp only [demo_content, List.mem_cons, List.mem_singleton, List.not_mem_nil, or_false]
        at ht
      rcases ht with rfl | rfl | rfl <;> simp only [PyObject.Unicode.injEq] at hf <;>
        subst hf <;> decide)
    (by
      intro tuple ht name hname
      simp only [demo_content, List.mem_cons, List.mem_singleton, List.not_mem_nil, or_false]
        at ht
      rcases ht with rfl | rfl | rfl <;>
        simp only [List.mem_singleton, PyObject.Unicode.injEq] at hname <;>
        subst hname <;> decide)
  obtain ⟨h2, _⟩ := hC1.1 vao hvao
  refine ⟨vao, hvao, ?_⟩
  have h80 : ((demo_content.filter fun t => t.divisor demo_parse = 0).map
      (ContentTuple.buf_vertices demo_parse)).min? = some 80 := by decide
  rw [h80] at h2
  exact (Option.some.inj h2).symm

/-- C2 (the code at the failing input): the validation pass accepts a content entry whose
attribute name is `in_vert`, a NUL and `zz`, because line 665 looks up the C string `in_vert`;
that name is not in the attribute table of the program, so the entry does not match in the
words of the claim.  `vertex_array` then returns no error: it has the driver create and bind
the vertex array (the log starts with these calls), and the binding pass dereferences the null
that `PyDict_GetItem` returns for the whole name. -/
theorem vertex_array_accepts_name_cut_at_nul :
    c_str "in_vert\x00zz" = "in_vert" ∧
    vertex_array_validate ⟨0, 0⟩ demo_program demo_parse nul_content .None = .ok () ∧
    demo_program.attributes "in_vert\x00zz" = none ∧
    (∀ tuple ∈ nul_content, attribute_matches demo_program demo_parse tuple 0 = false) ∧
    (MGLContext_vertex_array ⟨0, 0⟩ demo_program demo_parse nul_content .None 9).result =
      .undefined ∧
    List.IsPrefix [.GenVertexArrays, .BindVertexArray 9, .UseProgram 3]
      (MGLContext_vertex_array ⟨0, 0⟩ demo_program demo_parse nul_content .None 9).gl := by
  refine ⟨by decide, by decide, by decide, by decide, rfl, ⟨[], rfl⟩⟩

/-! ## vertex_array: errors and the driver -/

theorem bind_attributes_no_error (program : MGLProgram) (format_info : FormatInfo) :
    ∀ (attrs : List PyObject) (ptr : Int) (it : List FormatNode) (e : MGLError),
      bind_attributes program format_info attrs ptr it ≠ .error e := by
  intro attrs
  induction attrs with
  | nil => intro ptr it e; simp [bind_attributes]
  | cons a rest ih =>
    intro ptr it e
    unfold bind_attributes
    cases hn : next_node_ptr ptr it with
    | none => simp
    | some p =>
      obtain ⟨node, ptr2, it2⟩ := p
      simp only
      cases a with
      | Unicode name =>
        simp only
        cases hattr : program.attributes name with
        | none => simp
        | some attrib =>
          simp only
          cases hrest : bind_attributes program format_info rest
              (bind_rows attrib format_info attrib.rows_length.toNat 0 ptr2).1 it2 with
          | ok more => simp
          | error e2 => exact absurd hrest (ih _ _ _)
          | undefined => simp
      | None => simp
      | Buffer b => simp
      | Texture t => simp
      | Renderbuffer r => simp
      | Other n c => simp

theorem bind_content_no_error (program : MGLProgram) (parse : String → FormatIterator)
    (indexed : Bool) :
    ∀ (content : List ContentTuple) (i : Nat) (num_vertices : Int) (e : MGLError),
      bind_content program parse indexed i num_vertices content ≠ .error e := by
  intro content
  induction content with
  | nil => intro i nv e; simp [bind_content]
  | cons t rest ih =>
    intro i nv e h
    unfold bind_content at h
    split at h
    · simp only at h
      split_ifs at h
      all_goals
        split at h
        · rename_i e2 he
          exact bind_attributes_no_error _ _ _ _ _ _ he
        · simp at h
        · split at h
          · simp at h
          · rename_i e2 he
            exact ih _ _ _ he
          · simp at h
    · simp at h

/-- C12: every error of the validation pass of `vertex_array` is returned with an empty driver
log, `gl.GenVertexArrays` not yet called; and an error `vertex_array` returns is either an error
of the validation pass, returned so, or "cannot create vertex array". -/
theorem vertex_array_validation_error_before_driver (self : MGLContext) (program : MGLProgram)
    (parse : String → FormatIterator) (content : List ContentTuple) (index_buffer : PyObject)
    (vertex_array_obj : Int) :
    (∀ e, vertex_array_validate self program parse content index_buffer = .error e →
      MGLContext_vertex_array self program parse content index_buffer vertex_array_obj =
        ⟨.error e, []⟩) ∧
    (∀ e, (MGLContext_vertex_array self program parse content index_buffer
        vertex_array_obj).result = .error e → e ≠ .cannot_create_vertex_array →
      vertex_array_validate self program parse content index_buffer = .error e ∧
      (MGLContext_vertex_array self program parse content index_buffer
        vertex_array_obj).gl = []) := by
  constructor
  · intro e h
    unfold MGLContext_vertex_array
    simp only [h]
  · intro e h hne
    unfold MGLContext_vertex_array at h ⊢
    cases hv : vertex_array_validate self program parse content index_buffer with
    | error e2 =>
      simp only [hv] at h ⊢
      simp only [Result.error.injEq] at h
      subst h
      simp
    | undefined => simp [hv] at h
    | ok u =>
      exfalso
      simp only [hv] at h
      split_ifs at h with h0
      · simp only [Result.error.injEq] at h
        exact hne h.symm
      · split at h
        · rename_i e2 he
          exact bind_content_no_error _ _ _ _ _ _ _ he
        · simp at h
        · simp at h


/-- A program of another context: refused before any driver call. -/
theorem vertex_array_validation_error_before_driver_witness :
    MGLContext_vertex_array ⟨1, 0⟩ demo_program demo_parse demo_content .None 9 =
      ⟨.error .program_context, []⟩ :=
  (vertex_array_validation_error_before_driver ⟨1, 0⟩ demo_program demo_parse demo_content
    .None 9).1 _ (by decide)

/-! ## vertex_array: the vertex count with an index buffer -/

theorem bind_content_indexed (program : MGLProgram) (parse : String → FormatIterator) :
    ∀ (content : List ContentTuple) (i : Nat) (num_vertices n : Int) (calls : List GLCall),
      bind_content program parse true i num_vertices content = .ok (n, calls) →
      n = num_vertices := by
  intro content
  induction content with
  | nil =>
    intro i nv n calls h
    simp only [bind_content, Result.ok.injEq, Prod.mk.injEq] at h
    exact h.1.symm
  | cons t rest ih =>
    intro i nv n calls h
    unfold bind_content at h
    split at h
    · simp only [Bool.true_eq_false, false_and, and_false, if_false] at h
      split_ifs at h
      split at h
      · simp at h
      · simp at h
      · split at h
        · rename_i n2 more hrest
          simp only [Result.ok.injEq, Prod.mk.injEq] at h
          rw [← h.1]
          exact ih _ _ _ _ hrest
        · simp at h
        · simp at h
    · simp at h

/-- C14: a vertex array created with an index buffer has the vertex count
`index_buffer->size / 4`, whatever the content. -/
theorem vertex_array_indexed_num_vertices (self : MGLContext) (program : MGLProgram)
    (parse : String → FormatIterator) (content : List ContentTuple) (index_buffer : MGLBuffer)
    (vertex_array_obj : Int) (vao : MGLVertexArray)
    (h : (MGLContext_vertex_array self program parse content (.Buffer index_buffer)
      vertex_array_obj).result = .ok vao) :
    vao.num_vertices = Int.tdiv index_buffer.size 4 := by
  unfold MGLContext_vertex_array at h
  split at h
  · simp at h
  · simp at h
  · split_ifs at h
    simp only [ne_eq, not_false_eq_true, decide_True, reduceCtorEq] at h
    split at h
    · simp at h
    · simp at h
    · rename_i n calls hbind
      simp only [Result.ok.injEq] at h
      rw [← h]
      exact bind_content_indexed program parse content 0 _ _ _ hbind

/-- The example content with an index buffer of 40 bytes: the count is 10. -/
theorem vertex_array_indexed_num_vertices_witness :
    ∃ vao, (MGLContext_vertex_array ⟨0, 0⟩ demo_program demo_parse demo_content
      (.Buffer ⟨20, 40, false, 0⟩) 9).result = .ok vao ∧ vao.num_vertices = 10 :=
  have h : (MGLContext_vertex_array ⟨0, 0⟩ demo_program demo_parse demo_content
      (.Buffer ⟨20, 40, false, 0⟩) 9).result =
      .ok ⟨demo_program, .Buffer ⟨20, 40, false, 0⟩, 9, 10, 0⟩ := by rfl
  ⟨_, h, (vertex_array_indexed_num_vertices ⟨0, 0⟩ demo_program demo_parse demo_content
    ⟨20, 40, false, 0⟩ 9 _ h).trans (by decide)⟩

/-! ## framebuffer: the synthesized depth attachment -/

theorem assemble_framebuffer_gl (self : MGLContext) (color_attachments : List PyObject)
    (depth_attachment : PyObject) (width height samples : Int) (gl : List GLCall)
    (draw_framebuffer framebuffer_obj status : Int) :
    ∃ more, (assemble_framebuffer self color_attachments depth_attachment width height samples
      gl draw_framebuffer framebuffer_obj status).gl = gl ++ more := by
  unfold assemble_framebuffer
  simp only
  split_ifs
  · exact ⟨_, rfl⟩
  · exact ⟨_, by simp only [List.append_assoc]; rfl⟩
  · exact ⟨_, by simp only [List.append_assoc]; rfl⟩

/-- C15: when `framebuffer` is called without depth attachment and succeeds, the depth
attachment of the framebuffer is a renderbuffer made in the call (its handle is the one
`gl.GenRenderbuffers` gave, its storage the first thing the call allocates) with the width,
height and samples of the first color attachment, one component, the depth flag, and the
context of the call. -/
theorem framebuffer_synthesized_depth (self : MGLContext) (color_attachments : List PyObject)
    (renderbuffer_obj draw_framebuffer framebuffer_obj status : Int) (fb : MGLFramebuffer)
    (h : (MGLContext_framebuffer self color_attachments .None renderbuffer_obj draw_framebuffer
      framebuffer_obj status).result = .ok fb) :
    ∃ first rest a, color_attachments = first :: rest ∧ first.attachment = some a ∧
      renderbuffer_obj ≠ 0 ∧
      fb.depth_attachment = .Renderbuffer
        { renderbuffer_obj := renderbuffer_obj, width := a.width, height := a.height,
          components := 1, samples := a.samples, floats := true, depth := true,
          context := self.id } ∧
      ∃ more, (MGLContext_framebuffer self color_attachments .None renderbuffer_obj
        draw_framebuffer framebuffer_obj status).gl =
        [.GenRenderbuffers, .BindRenderbuffer .GL_RENDERBUFFER renderbuffer_obj,
         renderbuffer_storage a.samples .GL_DEPTH_COMPONENT24 a.width a.height] ++ more := by
  cases color_attachments with
  | nil => simp [MGLContext_framebuffer] at h
  | cons first rest =>
    unfold MGLContext_framebuffer at h ⊢
    simp only [List.length_cons, Nat.add_one_ne_zero, if_false, ne_eq, not_true_eq_false] at h ⊢
    split at h
    · simp at h
    · simp at h
    · rename_i width height samples hc
      obtain ⟨hfirst, _⟩ := check_color_attachments_ok self first rest _ _ hc
      cases ha : first.attachment with
      | none => simp [PyObject.shape, ha] at hfirst
      | some a =>
        simp only [PyObject.shape, ha, Option.map_some', Option.some.injEq, Prod.mk.injEq]
          at hfirst
        obtain ⟨rfl, rfl, rfl⟩ := hfirst
        split_ifs at h with hrb
        obtain ⟨_, h2, _⟩ := assemble_framebuffer_ok _ _ _ _ _ _ _ _ _ _ _ h
        refine ⟨first, rest, a, rfl, ha, hrb, h2, ?_⟩
        simp only [hc, if_neg hrb]
        exact assemble_framebuffer_gl _ _ _ _ _ _ _ _ _ _

/-- A single 64x64 texture and no depth attachment: the framebuffer gets a 64x64 depth
renderbuffer. -/
theorem framebuffer_synthesized_depth_witness :
    ∃ first rest a, [PyObject.Texture ⟨1, 64, 64, 4, 0, false, false, 0⟩] = first :: rest ∧
      first.attachment = some a ∧ (3 : Int) ≠ 0 ∧
      (MGLFramebuffer.mk 5 [.Texture ⟨1, 64, 64, 4, 0, false, false, 0⟩]
        (.Renderbuffer ⟨3, 64, 64, 1, 0, true, true, 0⟩) 64 64 0 0).depth_attachment =
        .Renderbuffer
        { renderbuffer_obj := 3, width := a.width, height := a.height,
          components := 1, samples := a.samples, floats := true, depth := true,
          context := 0 } ∧
      ∃ more, (MGLContext_framebuffer ⟨0, 0⟩ [.Texture ⟨1, 64, 64, 4, 0, false, false, 0⟩] .None
        3 0 5 GL_FRAMEBUFFER_COMPLETE).gl =
        [.GenRenderbuffers, .BindRenderbuffer .GL_RENDERBUFFER 3,
         renderbuffer_storage a.samples .GL_DEPTH_COMPONENT24 a.width a.height] ++ more :=
  framebuffer_synthesized_depth ⟨0, 0⟩ [.Texture ⟨1, 64, 64, 4, 0, false, false, 0⟩] 3 0 5
    GL_FRAMEBUFFER_COMPLETE _ (by decide)

/-! ## framebuffer: the binding and the objects under construction -/

theorem framebuffer_binding_append (l1 : List GLCall) :
    ∀ (binding : FramebufferBinding) (l2 : List GLCall),
      framebuffer_binding binding (l1 ++ l2) =
        framebuffer_binding (framebuffer_binding binding l1) l2 := by
  induction l1 with
  | nil => intro binding l2; rfl
  | cons c rest ih =>
    intro binding l2
    cases c <;> exact ih _ _

theorem framebuffer_binding_attach (binding : FramebufferBinding)
    (color_attachment : Option Int) (item : PyObject) :
    framebuffer_binding binding (attach color_attachment item) = binding := by
  cases item <;> simp [attach, framebuffer_binding]

theorem framebuffer_binding_attach_color (binding : FramebufferBinding)
    (items : List PyObject) :
    ∀ i, framebuffer_binding binding (attach_color_attachments i items) = binding := by
  induction items with
  | nil => intro i; rfl
  | cons item rest ih =>
    intro i
    simp only [attach_color_attachments, framebuffer_binding_append, framebuffer_binding_attach,
      ih]

theorem framebuffer_binding_storage (binding : FramebufferBinding) (samples : Int)
    (format : GLenum) (width height : Int) (rest : List GLCall) :
    framebuffer_binding binding (renderbuffer_storage samples format width height :: rest) =
      framebuffer_binding binding rest := by
  unfold renderbuffer_storage
  split_ifs <;> simp [framebuffer_binding]

theorem assemble_framebuffer_binding (self : MGLContext) (color_attachments : List PyObject)
    (depth_attachment : PyObject) (width height samples : Int) (gl : List GLCall)
    (draw_framebuffer framebuffer_obj status : Int) (binding : FramebufferBinding)
    (hgl : framebuffer_binding binding gl = binding) :
    framebuffer_binding binding
      (assemble_framebuffer self color_attachments depth_attachment width height samples gl
        draw_framebuffer framebuffer_obj status).gl =
      if framebuffer_obj = 0 then binding else ⟨draw_framebuffer, draw_framebuffer⟩ := by
  unfold assemble_framebuffer
  simp only
  split_ifs <;>
    simp [framebuffer_binding_append, framebuffer_binding_attach,
      framebuffer_binding_attach_color, framebuffer_binding, bind_framebuffer, hgl]

/-- What `framebuffer` leaves bound, whatever it returns: the bindings it found, on the paths
that bind no framebuffer, and on the others the framebuffer `draw_framebuffer` that line 1007
read, for drawing and for reading.  So the draw binding is restored; the read binding is set to
the draw binding. -/
theorem framebuffer_binding_after (self : MGLContext) (color_attachments : List PyObject)
    (depth_attachment : PyObject)
    (renderbuffer_obj draw_framebuffer framebuffer_obj status : Int)
    (binding : FramebufferBinding) :
    framebuffer_binding binding
        (MGLContext_framebuffer self color_attachments depth_attachment renderbuffer_obj
          draw_framebuffer framebuffer_obj status).gl = binding ∨
      framebuffer_binding binding
        (MGLContext_framebuffer self color_attachments depth_attachment renderbuffer_obj
          draw_framebuffer framebuffer_obj status).gl = ⟨draw_framebuffer, draw_framebuffer⟩ := by
  unfold MGLContext_framebuffer
  repeat' split
  all_goals first
    | exact Or.inl rfl
    | (rw [assemble_framebuffer_binding _ _ _ _ _ _ _ _ _ _ _
        (by first | rfl | simp [framebuffer_binding, framebuffer_binding_storage])]
       split_ifs
       · exact Or.inl rfl
       · exact Or.inr rfl)

/-- C16 (the code at the failing input): `copy_framebuffer` from the framebuffer 10 to the
framebuffer 11 leaves 11 bound for drawing and 10 for reading.  A call of `framebuffer` in that
state reads 11 at line 1007, binds its new framebuffer with `GL_FRAMEBUFFER`, which sets both
bindings, and restores with `gl.BindFramebuffer(GL_FRAMEBUFFER, 11)`: on return, with a
framebuffer or with the error of an incomplete one, the read binding is 11 and no longer 10. -/
theorem framebuffer_read_binding_not_restored :
    framebuffer_binding ⟨0, 0⟩
        (MGLContext_copy_framebuffer (.Framebuffer ⟨11, [], .None, 64, 64, 0, 0⟩)
          ⟨10, [], .None, 64, 64, 0, 0⟩).gl = ⟨11, 10⟩ ∧
    (MGLContext_framebuffer ⟨0, 0⟩ [.Texture ⟨1, 64, 64, 4, 0, false, false, 0⟩] .None 3 11 5
        0x8CD5).result =
      .ok ⟨5, [.Texture ⟨1, 64, 64, 4, 0, false, false, 0⟩],
        .Renderbuffer ⟨3, 64, 64, 1, 0, true, true, 0⟩, 64, 64, 0, 0⟩ ∧
    framebuffer_binding ⟨11, 10⟩
        (MGLContext_framebuffer ⟨0, 0⟩ [.Texture ⟨1, 64, 64, 4, 0, false, false, 0⟩] .None 3 11 5
          0x8CD5).gl = ⟨11, 11⟩ ∧
    (MGLContext_framebuffer ⟨0, 0⟩ [.Texture ⟨1, 64, 64, 4, 0, false, false, 0⟩] .None 3 11 5
        0x8CDD).result =
      .error (.framebuffer_not_complete "the framebuffer is not complete (UNSUPPORTED)") ∧
    framebuffer_binding ⟨11, 10⟩
        (MGLContext_framebuffer ⟨0, 0⟩ [.Texture ⟨1, 64, 64, 4, 0, false, false, 0⟩] .None 3 11 5
          0x8CDD).gl = ⟨11, 11⟩ := by
  decide

/-- C17 (the code at the failing input): a 64x64 texture, no depth attachment, a driver that
gives the renderbuffer handle 3 and the framebuffer handle 5 and then reports the status
`GL_FRAMEBUFFER_UNSUPPORTED`.  The call returns the error with both handles allocated, the
renderbuffer given storage and the framebuffer its attachments, and hands no object to
`Py_DECREF`: nothing is released. -/
theorem framebuffer_incomplete_releases_nothing :
    MGLContext_framebuffer ⟨0, 0⟩ [.Texture ⟨1, 64, 64, 4, 0, false, false, 0⟩] .None 3 0 5
        0x8CDD =
      ⟨.error (.framebuffer_not_complete "the framebuffer is not complete (UNSUPPORTED)"),
        [.GenRenderbuffers, .BindRenderbuffer .GL_RENDERBUFFER 3,
         .RenderbufferStorage .GL_RENDERBUFFER .GL_DEPTH_COMPONENT24 64 64,
         .GetIntegerv .GL_FRAMEBUFFER_BINDING, .GenFramebuffers,
         .BindFramebuffer .GL_FRAMEBUFFER 5,
         .FramebufferTexture2D .GL_FRAMEBUFFER (some 0) .GL_TEXTURE_2D 1 0,
         .FramebufferRenderbuffer .GL_FRAMEBUFFER none .GL_RENDERBUFFER 3,
         .CheckFramebufferStatus .GL_FRAMEBUFFER, .BindFramebuffer .GL_FRAMEBUFFER 0]⟩ ∧
    MGLContext_framebuffer_decref ⟨0, 0⟩ [.Texture ⟨1, 64, 64, 4, 0, false, false, 0⟩] .None 3 0
        5 0x8CDD = [] ∧
    MGLContext_framebuffer_decref ⟨0, 0⟩ [.Texture ⟨1, 64, 64, 4, 0, false, false, 0⟩] .None 3 0
        0 0x8CD5 = [.framebuffer 0] := by
  decide

/-! ## depth_texture -/

/-- C18 (the code at the failing input): `texture` accepts a 1x1 texture of one component and
float elements without data, with 0 samples and the alignment 4, and creates it.  The call
`depth_texture((1, 1), None, 0, 4)` with the same shape is refused: the format of line 477 has
no unit for the alignment, so every call that carries one fails in `PyArg_ParseTuple`, before
any test of the shape and whatever the local `alignment` holds.  A call without the alignment
runs on that local, which nothing assigns: the texture is created when it holds 3, a value
`texture` refuses, and the value 0 is a division by zero. -/
theorem depth_texture_refuses_every_alignment :
    (MGLContext_texture ⟨0, 0⟩ 1 1 1 .None 0 4 true 7).result =
      .ok { texture_obj := 7, width := 1, height := 1, components := 1, samples := 0,
            floats := true, depth := false, context := 0 } ∧
    (∀ (self : MGLContext) (width height : Int) (data : PyData)
        (samples alignment_arg alignment texture_obj : Int),
      MGLContext_depth_texture_call self width height data samples (some alignment_arg)
        alignment texture_obj = ⟨.error (.arguments_count 3 4), []⟩) ∧
    MGLContext_texture ⟨0, 0⟩ 1 1 1 .None 0 3 true 7 = ⟨.error .invalid_alignment, []⟩ ∧
    (MGLContext_depth_texture_call ⟨0, 0⟩ 1 1 .None 0 none 3 7).result =
      .ok { texture_obj := 7, width := 1, height := 1, components := 1, samples := 0,
            floats := true, depth := true, context := 0 } ∧
    (MGLContext_depth_texture_call ⟨0, 0⟩ 1 1 .None 0 none 0 7).result = .undefined := by
  refine ⟨?_, fun _ _ _ _ _ _ _ _ => rfl, ?_, ?_, ?_⟩
  · simp [MGLContext_texture, samples_invalid_zero, texture_expected_size, aligned_size]
  · simp [MGLContext_texture, samples_invalid_zero]
  · simp [MGLContext_depth_texture_call, MGLContext_depth_texture, samples_invalid_zero]
  · simp [MGLContext_depth_texture_call, MGLContext_depth_texture, samples_invalid_zero]

/-! ## copy_framebuffer -/

theorem copy_framebuffer_to_framebuffer (dst src : MGLFramebuffer) :
    MGLContext_copy_framebuffer (.Framebuffer dst) src =
      ⟨.ok (),
        [.BindFramebuffer .GL_READ_FRAMEBUFFER src.framebuffer_obj,
         .BindFramebuffer .GL_DRAW_FRAMEBUFFER dst.framebuffer_obj,
         .BlitFramebuffer 0 0 (min src.width dst.width) (min src.height dst.height)
            0 0 (min src.width dst.width) (min src.height dst.height) true true .GL_NEAREST]⟩ := by
  have hw : (if src.width < dst.width then src.width else dst.width) =
      min src.width dst.width := by
    split_ifs with h
    · exact (min_eq_left (le_of_lt h)).symm
    · exact (min_eq_right (not_lt.1 h)).symm
  have hh : (if src.height < dst.height then src.height else dst.height) =
      min src.height dst.height := by
    split_ifs with h
    · exact (min_eq_left (le_of_lt h)).symm
    · exact (min_eq_right (not_lt.1 h)).symm
  simp only [MGLContext_copy_framebuffer, CopyTarget.is_framebuffer, if_true, hw, hh]

/-- C19: with a framebuffer as destination, `copy_framebuffer` binds the source for reading and
the destination for drawing and blits the rectangle from (0, 0) to
(min of the widths, min of the heights), the same for source and destination, with the color
and the depth bit. -/
theorem copy_framebuffer_blits_intersection (dst src : MGLFramebuffer) :
    MGLContext_copy_framebuffer (.Framebuffer dst) src =
      ⟨.ok (),
        [.BindFramebuffer .GL_READ_FRAMEBUFFER src.framebuffer_obj,
         .BindFramebuffer .GL_DRAW_FRAMEBUFFER dst.framebuffer_obj,
         .BlitFramebuffer 0 0 (min src.width dst.width) (min src.height dst.height)
            0 0 (min src.width dst.width) (min src.height dst.height) true true .GL_NEAREST]⟩ :=
  copy_framebuffer_to_framebuffer dst src

/-- C20: for a destination that is not a framebuffer, a texture included, `copy_framebuffer`
issues no driver call and returns "the dst must be a Framebuffer or Texture"; and for no
destination at all does it call `gl.CopyTexImage2D`, the call of the texture branch. -/
theorem copy_framebuffer_texture_branch_unreachable (src : MGLFramebuffer) :
    (∀ o : PyObject, MGLContext_copy_framebuffer (.Object o) src = ⟨.error .dst_type, []⟩) ∧
    (∀ texture : MGLTexture,
      MGLContext_copy_framebuffer (.Object (.Texture texture)) src = ⟨.error .dst_type, []⟩) ∧
    (∀ SHADER_NAME, MGLError.dst_type.message SHADER_NAME =
      "the dst must be a Framebuffer or Texture") ∧
    (∀ dst target level internalformat x y width height border,
      GLCall.CopyTexImage2D target level internalformat x y width height border ∉
        (MGLContext_copy_framebuffer dst src).gl) := by
  have h1 : ∀ o : PyObject,
      MGLContext_copy_framebuffer (.Object o) src = ⟨.error .dst_type, []⟩ := by
    intro o
    simp [MGLContext_copy_framebuffer, CopyTarget.is_framebuffer]
  refine ⟨h1, fun t => h1 _, fun _ => rfl, ?_⟩
  intro dst target level internalformat x y width height border
  cases dst with
  | Object o => rw [h1 o]; simp
  | Framebuffer d => rw [copy_framebuffer_to_framebuffer]; simp

/-! ## vertex_array: the count of nodes and the count of names -/

theorem check_content_append (self : MGLContext) (program : MGLProgram)
    (parse : String → FormatIterator) :
    ∀ (pre : List ContentTuple) (i : Nat) (rest : List ContentTuple),
      check_content self program parse i pre = .ok () →
      check_content self program parse i (pre ++ rest) =
        check_content self program parse (i + pre.length) rest := by
  intro pre
  induction pre with
  | nil => intro i rest _; simp
  | cons t ts ih =>
    intro i rest h
    obtain ⟨h1, h2⟩ := check_content_cons self program parse i t ts h
    have := ih (i + 1) rest h2
    simp only [List.cons_append, List.length_cons]
    rw [check_content, h1]
    simp only
    rw [this]
    congr 1
    omega

/-- C13: when the tests reach entry `i` of the content (the program and the index buffer belong
to the context, the entries before `i` pass), and entry `i` has a buffer of the context, a valid
format (not per instance if `i = 0`) and names, a count of names that differs from the node
count of the format makes `vertex_array` fail, before any driver call, with the size-mismatch
error, whose message names `content[i][1]` and `content[i][2]` and gives the node count and the
count of names. -/
theorem vertex_array_size_mismatch (self : MGLContext) (program : MGLProgram)
    (parse : String → FormatIterator) (pre : List ContentTuple) (tuple : ContentTuple)
    (post : List ContentTuple) (index_buffer : PyObject) (vertex_array_obj : Int)
    (buffer : MGLBuffer) (format : String) (SHADER_NAME : Nat → String)
    (hprogram : program.context = self.id)
    (hindex : index_buffer = .None ∨ index_buffer_context index_buffer = some self.id)
    (hpre : check_content self program parse 0 pre = .ok ())
    (hbuffer : tuple.buffer = .Buffer buffer) (hformat : tuple.format = .Unicode format)
    (hcontext : buffer.context = self.id) (hvalid : (parse format).info.valid = true)
    (hfirst : pre = [] → (parse format).info.divisor = 0)
    (hnames : tuple.attributes ≠ [])
    (hcount : (tuple.attributes.length : Int) ≠ (parse format).info.nodes) :
    MGLContext_vertex_array self program parse (pre ++ tuple :: post) index_buffer
        vertex_array_obj =
      ⟨.error (.content_size_mismatch pre.length (parse format).info.nodes
        tuple.attributes.length), []⟩ ∧
    (MGLError.content_size_mismatch pre.length (parse format).info.nodes
        tuple.attributes.length).message SHADER_NAME =
      "content[" ++ toString (pre.length : Int) ++ "][1] and content[" ++
        toString (pre.length : Int) ++ "][2] size mismatch " ++
        toString (parse format).info.nodes ++ " != " ++
        toString (tuple.attributes.length : Int) := by
  refine ⟨?_, rfl⟩
  have htuple : check_content_tuple self program parse pre.length tuple =
      .error (.content_size_mismatch pre.length (parse format).info.nodes
        tuple.attributes.length) := by
    unfold check_content_tuple
    simp only [hbuffer, hformat]
    have h1 : ¬ (buffer.context ≠ self.id) := not_not.2 hcontext
    have h2 : ¬ ¬ ((parse format).info.valid = true) := not_not.2 hvalid
    have h3 : ¬ (pre.length = 0 ∧ (parse format).info.divisor ≠ 0) := by
      rintro ⟨hl, hd⟩
      exact hd (hfirst (List.length_eq_zero.1 hl))
    have h4 : ¬ ((tuple.attributes.length : Int) = 0) := by
      intro h
      exact hnames (List.length_eq_zero.1 (by exact_mod_cast h))
    rw [if_neg h1, if_neg h2, if_neg h3, if_neg h4, if_pos hcount]
  have hcontent : check_content self program parse 0 (pre ++ tuple :: post) =
      .error (.content_size_mismatch pre.length (parse format).info.nodes
        tuple.attributes.length) := by
    rw [check_content_append self program parse pre 0 _ hpre, check_content]
    simp only [Nat.zero_add, htuple]
  have hvalidate : vertex_array_validate self program parse (pre ++ tuple :: post)
      index_buffer = .error (.content_size_mismatch pre.length (parse format).info.nodes
        tuple.attributes.length) := by
    unfold vertex_array_validate
    have h1 : ¬ (program.context ≠ self.id) := not_not.2 hprogram
    have h2 : ¬ (index_buffer ≠ .None ∧ index_buffer_context index_buffer = none) := by
      rintro ⟨hn, hc⟩
      rcases hindex with h | h
      · exact hn h
      · rw [h] at hc; exact absurd hc (by simp)
    have h3 : ¬ (index_buffer ≠ .None ∧ index_buffer_context index_buffer ≠ some self.id) := by
      rintro ⟨hn, hc⟩
      rcases hindex with h | h
      · exact hn h
      · exact hc h
    have h4 : ¬ ((pre ++ tuple :: post).length = 0) := by simp
    rw [if_neg h1, if_neg h2, if_neg h3, if_neg h4]
    simp only [hcontent]
  unfold MGLContext_vertex_array
  simp only [hvalidate]

/-- A format of 3 nodes bound to 2 names in the first entry. -/
theorem vertex_array_size_mismatch_witness :
    MGLContext_vertex_array ⟨0, 0⟩ demo_program
        (fun _ => ⟨⟨36, 3, 0, true⟩, [⟨3, 4, 'f'⟩, ⟨3, 4, 'f'⟩, ⟨3, 4, 'f'⟩]⟩)
        ([] ++ ⟨.Buffer ⟨11, 360, false, 0⟩, .Unicode "3f3f3f",
          [.Unicode "in_vert", .Unicode "in_offset"]⟩ :: []) .None 9 =
      ⟨.error (.content_size_mismatch 0 3 2), []⟩ ∧
    (MGLError.content_size_mismatch 0 3 2).message (fun _ => "") =
      "content[0][1] and content[0][2] size mismatch 3 != 2" :=
  vertex_array_size_mismatch ⟨0, 0⟩ demo_program
    (fun _ => ⟨⟨36, 3, 0, true⟩, [⟨3, 4, 'f'⟩, ⟨3, 4, 'f'⟩, ⟨3, 4, 'f'⟩]⟩) []
    ⟨.Buffer ⟨11, 360, false, 0⟩, .Unicode "3f3f3f", [.Unicode "in_vert", .Unicode "in_offset"]⟩
    [] .None 9 ⟨11, 360, false, 0⟩ "3f3f3f" (fun _ => "") rfl (Or.inl rfl) rfl rfl rfl rfl rfl
    (fun _ => rfl) (by simp) (by decide)

/-! ## program: one shader per slot -/

theorem check_varyings_ok : ∀ (varyings : List PyObject) (i : Nat),
    (∀ v ∈ varyings, ∃ name, v = PyObject.Unicode name) → check_varyings i varyings = .ok () := by
  intro varyings
  induction varyings with
  | nil => intro i _; rfl
  | cons v rest ih =>
    intro i h
    obtain ⟨name, rfl⟩ := h v (List.mem_cons_self _ _)
    simp only [check_varyings]
    exact ih (i + 1) (fun x hx => h x (List.mem_cons_of_mem _ hx))

/-- The scan of the shaders ends without error only on shaders of the context in slots that are
free and pairwise distinct. -/
theorem check_shaders_ok (self : MGLContext) (NUM_SHADER_SLOTS : Nat) :
    ∀ (shaders : List ShaderItem) (i : Nat) (counter : Nat → Int),
      (∀ slot, counter slot = 0 ∨ counter slot = 1) →
      check_shaders self NUM_SHADER_SLOTS i counter shaders = .ok () →
      (∀ item ∈ shaders, ∃ shader, item = .Shader shader ∧ shader.context = self.id ∧
        shader.shader_slot < NUM_SHADER_SLOTS) ∧
      (slots shaders).Nodup ∧ ∀ slot ∈ slots shaders, counter slot = 0 := by
  intro shaders
  induction shaders with
  | nil => intro i counter _ _; simp [slots]
  | cons item rest ih =>
    intro i counter hinv h
    unfold check_shaders at h
    cases item with
    | Object o => simp at h
    | Shader shader =>
      simp only at h
      split_ifs at h with h1 h2 h3
      have hw : int32 (counter shader.shader_slot + 1) = counter shader.shader_slot + 1 := by
        rcases hinv shader.shader_slot with h0 | h0 <;> rw [h0] <;> decide
      rw [Function.update_same, hw] at h3
      have hzero : counter shader.shader_slot = 0 := by
        rcases hinv shader.shader_slot with h0 | h0
        · exact h0
        · rw [h0] at h3; exact absurd h3 (by decide)
      have hinv2 : ∀ slot, Function.update counter shader.shader_slot
          (int32 (counter shader.shader_slot + 1)) slot = 0 ∨
          Function.update counter shader.shader_slot
          (int32 (counter shader.shader_slot + 1)) slot = 1 := by
        intro slot
        by_cases hs : slot = shader.shader_slot
        · subst hs; rw [Function.update_same, hw, hzero]; right; rfl
        · rw [Function.update_noteq hs]; exact hinv slot
      obtain ⟨hall, hnodup, hfree⟩ := ih (i + 1) _ hinv2 h
      refine ⟨?_, ?_, ?_⟩
      · intro x hx
        rcases List.mem_cons.1 hx with rfl | hx
        · exact ⟨shader, rfl, not_not.1 h1, by omega⟩
        · exact hall x hx
      · have hnot : shader.shader_slot ∉ slots rest := by
          intro hmem
          have := hfree _ hmem
          rw [Function.update_same, hw, hzero] at this
          exact absurd this (by decide)
        have hcons : slots (ShaderItem.Shader shader :: rest) =
            shader.shader_slot :: slots rest := by
          simp [slots, ShaderItem.slot]
        rw [hcons]
        exact List.nodup_cons.2 ⟨hnot, hnodup⟩
      · intro slot hslot
        have hcons : slots (ShaderItem.Shader shader :: rest) =
            shader.shader_slot :: slots rest := by
          simp [slots, ShaderItem.slot]
        rw [hcons] at hslot
        rcases List.mem_cons.1 hslot with rfl | hslot
        · exact hzero
        · by_cases hs : slot = shader.shader_slot
          · subst hs; exact hzero
          · have := hfree slot hslot
            rwa [Function.update_noteq hs] at this

/-- The scan of the shaders stops at the first shader whose slot is taken. -/
theorem check_shaders_duplicate (self : MGLContext) (NUM_SHADER_SLOTS : Nat)
    (shader : MGLShader) (post : List ShaderItem) (hcontext : shader.context = self.id) :
    ∀ (pre : List ShaderItem) (i : Nat) (counter : Nat → Int),
      (∀ slot, counter slot = 0 ∨ counter slot = 1) →
      (∀ item ∈ pre, ∃ s, item = .Shader s ∧ s.context = self.id ∧
        s.shader_slot < NUM_SHADER_SLOTS) →
      (slots pre).Nodup → (∀ slot ∈ slots pre, counter slot = 0) →
      shader.shader_slot < NUM_SHADER_SLOTS →
      (counter shader.shader_slot = 1 ∨ shader.shader_slot ∈ slots pre) →
      check_shaders self NUM_SHADER_SLOTS i counter (pre ++ .Shader shader :: post) =
        .error (.duplicate_shader shader.shader_slot) := by
  intro pre
  induction pre with
  | nil =>
    intro i counter hinv _ _ _ hlt hdup
    have hone : counter shader.shader_slot = 1 := by
      rcases hdup with h | h
      · exact h
      · simp [slots] at h
    simp only [List.nil_append, check_shaders]
    rw [if_neg (not_not.2 hcontext), if_neg (by omega)]
    simp only [Function.update_same, hone]
    rfl
  | cons item rest ih =>
    intro i counter hinv hpre hnodup hfree hlt hdup
    obtain ⟨s, rfl, hs1, hs2⟩ := hpre _ (List.mem_cons_self _ _)
    have hcons : slots (ShaderItem.Shader s :: rest) = s.shader_slot :: slots rest := by
      simp [slots, ShaderItem.slot]
    rw [hcons] at hnodup hfree hdup
    obtain ⟨hnot, hnodup2⟩ := List.nodup_cons.1 hnodup
    have hzero : counter s.shader_slot = 0 := hfree _ (List.mem_cons_self _ _)
    have hw : int32 (counter s.shader_slot + 1) = 1 := by rw [hzero]; decide
    simp only [List.cons_append, check_shaders]
    rw [if_neg (not_not.2 hs1), if_neg (by omega)]
    simp only [Function.update_same, hw]
    rw [if_neg (by decide)]
    apply ih (i + 1)
    · intro slot
      by_cases h : slot = s.shader_slot
      · subst h; rw [Function.update_same]; right; rfl
      · rw [Function.update_noteq h]; exact hinv slot
    · exact fun x hx => hpre x (List.mem_cons_of_mem _ hx)
    · exact hnodup2
    · intro slot hslot
      have hne : slot ≠ s.shader_slot := fun h => hnot (h ▸ hslot)
      rw [Function.update_noteq hne]
      exact hfree slot (List.mem_cons_of_mem _ hslot)
    · exact hlt
    · by_cases h : shader.shader_slot = s.shader_slot
      · left; rw [h, Function.update_same]
      · rw [Function.update_noteq h]
        rcases hdup with hd | hd
        · exact Or.inl hd
        · rcases List.mem_cons.1 hd with hd | hd
          · exact absurd hd h
          · exact Or.inr hd

/-- C11: `program` on a list in which a shader takes the slot of an earlier one (the varyings
being strings, so that the scan of the shaders is reached, and the shaders before it being
shaders of the context in pairwise distinct slots) fails at that shader with the error
"duplicate" followed by the name of the slot; and every program it returns keeps the shaders it
was given, all of them shaders of the context, in pairwise distinct slots. -/
theorem program_one_shader_per_slot (self : MGLContext) (NUM_SHADER_SLOTS : Nat)
    (varyings : List PyObject)
    (compiled : Except String (Int × (String → Option MGLAttribute))) :
    (∀ (pre : List ShaderItem) (shader : MGLShader) (post : List ShaderItem),
      (∀ v ∈ varyings, ∃ name, v = PyObject.Unicode name) →
      (∀ item ∈ pre, ∃ s, item = .Shader s ∧ s.context = self.id ∧
        s.shader_slot < NUM_SHADER_SLOTS) →
      (slots pre).Nodup → shader.context = self.id → shader.shader_slot ∈ slots pre →
      MGLContext_program self NUM_SHADER_SLOTS (pre ++ .Shader shader :: post) varyings
          compiled = .error (.duplicate_shader shader.shader_slot) ∧
      ∀ SHADER_NAME, (MGLError.duplicate_shader shader.shader_slot).message SHADER_NAME =
        "duplicate " ++ SHADER_NAME shader.shader_slot) ∧
    (∀ (shaders : List ShaderItem) (program : MGLProgram),
      MGLContext_program self NUM_SHADER_SLOTS shaders varyings compiled = .ok program →
      program.shaders = shaders ∧
      (∀ item ∈ shaders, ∃ s, item = .Shader s ∧ s.context = self.id) ∧
      (slots shaders).Nodup) := by
  constructor
  · intro pre shader post hv hpre hnodup hcontext hdup
    refine ⟨?_, fun _ => rfl⟩
    have hlt : shader.shader_slot < NUM_SHADER_SLOTS := by
      simp only [slots, List.mem_filterMap] at hdup
      obtain ⟨item, hitem, hslot⟩ := hdup
      obtain ⟨s, rfl, _, hs⟩ := hpre item hitem
      simp only [ShaderItem.slot, Option.some.injEq] at hslot
      omega
    unfold MGLContext_program
    rw [check_varyings_ok varyings 0 hv]
    simp only
    rw [check_shaders_duplicate self NUM_SHADER_SLOTS shader post hcontext pre 0 (fun _ => 0)
      (fun _ => Or.inl rfl) hpre hnodup (fun _ _ => rfl) hlt (Or.inr hdup)]
  · intro shaders program h
    unfold MGLContext_program at h
    split at h
    · simp at h
    · simp at h
    · split at h
      · simp at h
      · simp at h
      · rename_i hs
        obtain ⟨hall, hnodup, _⟩ := check_shaders_ok self NUM_SHADER_SLOTS shaders 0
          (fun _ => 0) (fun _ => Or.inl rfl) hs
        split at h
        · simp at h
        · simp only [Result.ok.injEq] at h
          subst h
          refine ⟨rfl, ?_, hnodup⟩
          intro item hitem
          obtain ⟨s, h1, h2, _⟩ := hall item hitem
          exact ⟨s, h1, h2⟩

/-- Two vertex shaders around a fragment shader: the second vertex shader is refused. -/
theorem program_one_shader_per_slot_witness :
    MGLContext_program ⟨0, 0⟩ 5
      ([.Shader ⟨1, 0, 0⟩, .Shader ⟨2, 1, 0⟩] ++ .Shader ⟨3, 0, 0⟩ :: []) []
      (.ok (4, fun _ => none)) = .error (.duplicate_shader 0) :=
  ((program_one_shader_per_slot ⟨0, 0⟩ 5 [] (.ok (4, fun _ => none))).1
    [.Shader ⟨1, 0, 0⟩, .Shader ⟨2, 1, 0⟩] ⟨3, 0, 0⟩ [] (by simp)
    (by
      intro item hitem
      simp only [List.mem_cons, List.mem_singleton, List.not_mem_nil, or_false] at hitem
      rcases hitem with rfl | rfl
      · exact ⟨_, rfl, rfl, by decide⟩
      · exact ⟨_, rfl, rfl, by decide⟩)
    (by decide) rfl (by decide)).1

/-! ## vertex_array: the binding pass -/

theorem infix_append_left_of {l a b : List GLCall} (h : l <:+: b) : l <:+: a ++ b := by
  obtain ⟨s, t, rfl⟩ := h
  exact ⟨a ++ s, t, by simp⟩

theorem infix_append_right_of {l a b : List GLCall} (h : l <:+: a) : l <:+: a ++ b := by
  obtain ⟨s, t, rfl⟩ := h
  exact ⟨s, t ++ b, by simp⟩

/-- The rows of one attribute: the pointer after them, and the calls of each row. -/
theorem bind_rows_spec (attrib : MGLAttribute) (format_info : FormatInfo) :
    ∀ (n r0 : Nat) (ptr : Int),
      (bind_rows attrib format_info n r0 ptr).1 = ptr + n * attrib.row_size ∧
      ∀ r, r < n →
        row_calls attrib format_info (int32 (attrib.location + ((r0 + r : Nat) : Int)))
          (ptr + r * attrib.row_size) <:+: (bind_rows attrib format_info n r0 ptr).2 := by
  intro n
  induction n with
  | zero => intro r0 ptr; simp [bind_rows]
  | succ n ih =>
    intro r0 ptr
    obtain ⟨h1, h2⟩ := ih (r0 + 1) (ptr + attrib.row_size)
    simp only [bind_rows]
    constructor
    · rw [h1]; push_cast; ring
    · intro r hr
      cases r with
      | zero =>
        exact ⟨[], (bind_rows attrib format_info n (r0 + 1) (ptr + attrib.row_size)).2, by
          simp [row_calls]⟩
      | succ r =>
        have := h2 r (by omega)
        have e1 : ((r0 + 1 + r : Nat) : Int) = ((r0 + (r + 1) : Nat) : Int) := by
          push_cast; ring
        have e2 : ptr + attrib.row_size + (r : Int) * attrib.row_size =
            ptr + ((r + 1 : Nat) : Int) * attrib.row_size := by push_cast; ring
        rw [e1, e2] at this
        exact infix_append_left_of this

theorem next_node_ptr_spec :
    ∀ (it : List FormatNode) (ptr : Int) (node : FormatNode) (ptr2 : Int)
      (rest : List FormatNode),
      (∀ n ∈ it, n.shape = 'x' → isInt32 (n.count * n.size)) →
      next_node_ptr ptr it = some (node, ptr2, rest) →
      ptr2 = ptr + padding_before it 0 ∧
      (∀ j, padding_before it (j + 1) = padding_before it 0 + padding_before rest j) ∧
      (∀ n ∈ rest, n.shape = 'x' → isInt32 (n.count * n.size)) := by
  intro it
  induction it with
  | nil => intro ptr node ptr2 rest _ h; simp [next_node_ptr] at h
  | cons n ns ih =>
    intro ptr node ptr2 rest hfit h
    unfold next_node_ptr at h
    by_cases hx : n.shape = 'x'
    · simp only [hx, if_true] at h
      have hw : int32 (n.count * n.size) = n.count * n.size :=
        int32_eq_self (hfit n (List.mem_cons_self _ _) hx)
      rw [hw] at h
      obtain ⟨h1, h2, h3⟩ := ih _ node ptr2 rest
        (fun m hm => hfit m (List.mem_cons_of_mem _ hm)) h
      refine ⟨?_, ?_, h3⟩
      · simp only [padding_before, hx, if_true]; rw [h1]; ring
      · intro j
        simp only [padding_before, hx, if_true]
        rw [h2 j]; ring
    · simp only [hx, if_false, Option.some.injEq, Prod.mk.injEq] at h
      obtain ⟨rfl, rfl, rfl⟩ := h
      refine ⟨?_, ?_, fun m hm => hfit m (List.mem_cons_of_mem _ hm)⟩
      · simp [padding_before, hx]
      · intro j
        simp [padding_before, hx]

/-- The loop over the names of one content entry: where each row of each named attribute is
bound. -/
theorem bind_attributes_spec (program : MGLProgram) (format_info : FormatInfo)
    (hrows : ∀ name attrib, program.attributes name = some attrib → 0 ≤ attrib.rows_length) :
    ∀ (names : List PyObject) (ptr : Int) (it : List FormatNode) (calls : List GLCall),
      (∀ n ∈ it, n.shape = 'x' → isInt32 (n.count * n.size)) →
      bind_attributes program format_info names ptr it = .ok calls →
      ∀ j name attrib, names[j]? = some (.Unicode name) →
        program.attributes name = some attrib →
        ∀ r : Nat, (r : Int) < attrib.rows_length →
          row_calls attrib format_info (int32 (attrib.location + r))
            (ptr + padding_before it j + rows_bytes program (names.take j) +
              r * attrib.row_size) <:+: calls := by
  intro names
  induction names with
  | nil => intro ptr it calls _ _ j name attrib hj; simp at hj
  | cons a rest ih =>
    intro ptr it calls hfit h j name attrib hj hattr r hr
    unfold bind_attributes at h
    cases hn : next_node_ptr ptr it with
    | none => simp [hn] at h
    | some p =>
      obtain ⟨node, ptr2, it2⟩ := p
      simp only [hn] at h
      obtain ⟨hp1, hp2, hfit2⟩ := next_node_ptr_spec it ptr node ptr2 it2 hfit hn
      cases a with
      | Unicode name0 =>
        simp only at h
        cases hattr0 : program.attributes name0 with
        | none => simp [hattr0] at h
        | some attrib0 =>
          simp only [hattr0] at h
          obtain ⟨hlast, hrowsin⟩ := bind_rows_spec attrib0 format_info
            attrib0.rows_length.toNat 0 ptr2
          cases hrest : bind_attributes program format_info rest
              (bind_rows attrib0 format_info attrib0.rows_length.toNat 0 ptr2).1 it2 with
          | error e => simp [hrest] at h
          | undefined => simp [hrest] at h
          | ok more =>
            simp only [hrest, Result.ok.injEq] at h
            subst h
            have hnonneg := hrows name0 attrib0 hattr0
            have hnat : ((attrib0.rows_length.toNat : Nat) : Int) = attrib0.rows_length :=
              Int.toNat_of_nonneg hnonneg
            cases j with
            | zero =>
              simp only [List.getElem?_cons_zero, Option.some.injEq, PyObject.Unicode.injEq]
                at hj
              subst hj
              rw [hattr0] at hattr
              simp only [Option.some.injEq] at hattr
              subst hattr
              have hlt : r < attrib0.rows_length.toNat := by omega
              have := hrowsin r hlt
              simp only [Nat.zero_add] at this
              simp only [List.take_zero, rows_bytes, add_zero]
              rw [← hp1]
              exact infix_append_right_of this
            | succ j =>
              simp only [List.getElem?_cons_succ] at hj
              have := ih _ it2 more hfit2 hrest j name attrib hj hattr r hr
              rw [hlast, hnat, hp1] at this
              have e : ptr + padding_before it 0 + attrib0.rows_length * attrib0.row_size +
                  padding_before it2 j + rows_bytes program (List.take j rest) +
                  (r : Int) * attrib.row_size =
                  ptr + padding_before it (j + 1) +
                  rows_bytes program (List.take (j + 1) (PyObject.Unicode name0 :: rest)) +
                  (r : Int) * attrib.row_size := by
                rw [hp2 j]
                simp only [List.take_succ_cons, rows_bytes, hattr0]
                ring
              rw [e] at this
              exact infix_append_left_of this
      | None => simp at h
      | Buffer b => simp at h
      | Texture t => simp at h
      | Renderbuffer r => simp at h
      | Other n c => simp at h

/-- The binding loop over the content: the calls of each entry, after the binding of its
buffer, are part of the calls of the loop. -/
theorem bind_content_entries (program : MGLProgram) (parse : String → FormatIterator)
    (indexed : Bool) :
    ∀ (content : List ContentTuple) (i : Nat) (num_vertices n : Int) (calls : List GLCall),
      bind_content program parse indexed i num_vertices content = .ok (n, calls) →
      ∀ tuple ∈ content, ∃ buffer format entry,
        tuple.buffer = .Buffer buffer ∧ tuple.format = .Unicode format ∧
        bind_attributes program (parse format).info tuple.attributes 0 (parse format).nodes =
          .ok entry ∧
        (GLCall.BindBuffer .GL_ARRAY_BUFFER buffer.buffer_obj :: entry) <:+: calls := by
  intro content
  induction content with
  | nil => intro i nv n calls _ tuple ht; simp at ht
  | cons t rest ih =>
    intro i nv n calls h tuple ht
    unfold bind_content at h
    split at h
    · rename_i buffer format hb hf
      simp only at h
      split_ifs at h
      all_goals
        split at h
        · simp at h
        · simp at h
        · rename_i entry hentry
          split at h
          · rename_i n2 more hrest
            simp only [Result.ok.injEq, Prod.mk.injEq] at h
            obtain ⟨_, rfl⟩ := h
            rcases List.mem_cons.1 ht with rfl | ht
            · exact ⟨buffer, format, entry, hb, hf, hentry, ⟨[], more, by simp⟩⟩
            · obtain ⟨b2, f2, e2, h1, h2, h3, h4⟩ := ih _ _ _ _ hrest tuple ht
              exact ⟨b2, f2, e2, h1, h2, h3, infix_append_left_of h4⟩
          · simp at h
          · simp at h
    · simp at h

theorem vertex_array_ok_bind (self : MGLContext) (program : MGLProgram)
    (parse : String → FormatIterator) (content : List ContentTuple) (index_buffer : PyObject)
    (vertex_array_obj : Int) (vao : MGLVertexArray)
    (h : (MGLContext_vertex_array self program parse content index_buffer
      vertex_array_obj).result = .ok vao) :
    ∃ indexed num_vertices n calls first,
      bind_content program parse indexed 0 num_vertices content = .ok (n, calls) ∧
      (MGLContext_vertex_array self program parse content index_buffer vertex_array_obj).gl =
        first ++ calls := by
  have hv := vertex_array_ok_validate self program parse content index_buffer
    vertex_array_obj vao h
  unfold MGLContext_vertex_array at h ⊢
  simp only [hv] at h ⊢
  split_ifs at h ⊢ with h0
  cases index_buffer
  all_goals
    simp only at h ⊢
    split at h
    · simp at h
    · simp at h
    · rename_i n calls hbind
      exact ⟨_, _, n, calls, _, hbind, rfl⟩

/-- C21: in a vertex array that `vertex_array` returns, the calls of the binding pass contain,
for every content entry, the binding of its buffer followed by the calls of its names (made
with the running offset starting at 0), and among these, for row `r` of the `j`-th named
attribute, the pointer at location `location + r` with the total byte size of the format of the
entry as stride and the offset `pointer_offset` (the padding before the `j`-th non-padding node,
plus `rows_length * row_size` of the attributes named before, plus `r * row_size`), then the
divisor of the format for that location, then its enabling.  The attribute table has no
negative row count and locations that fit an `int`, and `count * size` of a padding node fits
an `int`. -/
theorem vertex_array_binding_offsets (self : MGLContext) (program : MGLProgram)
    (parse : String → FormatIterator) (content : List ContentTuple) (index_buffer : PyObject)
    (vertex_array_obj : Int) (vao : MGLVertexArray)
    (hres : (MGLContext_vertex_array self program parse content index_buffer
      vertex_array_obj).result = .ok vao)
    (hrows : ∀ name attrib, program.attributes name = some attrib → 0 ≤ attrib.rows_length)
    (hloc : ∀ name attrib, program.attributes name = some attrib →
      ∀ r : Nat, (r : Int) < attrib.rows_length → isInt32 (attrib.location + r))
    (hpad : ∀ format, ∀ n ∈ (parse format).nodes, n.shape = 'x' → isInt32 (n.count * n.size)) :
    ∀ tuple ∈ content, ∃ buffer format entry,
      tuple.buffer = .Buffer buffer ∧ tuple.format = .Unicode format ∧
      bind_attributes program (parse format).info tuple.attributes 0 (parse format).nodes =
        .ok entry ∧
      (GLCall.BindBuffer .GL_ARRAY_BUFFER buffer.buffer_obj :: entry) <:+:
        (MGLContext_vertex_array self program parse content index_buffer vertex_array_obj).gl ∧
      ∀ j name attrib, tuple.attributes[j]? = some (.Unicode name) →
        program.attributes name = some attrib →
        ∀ r : Nat, (r : Int) < attrib.rows_length →
          row_calls attrib (parse format).info (attrib.location + r)
            (pointer_offset program (parse format).nodes tuple.attributes j r attrib) <:+:
            entry := by
  intro tuple ht
  obtain ⟨indexed, nv, n, calls, first, hbind, hgl⟩ :=
    vertex_array_ok_bind self program parse content index_buffer vertex_array_obj vao hres
  obtain ⟨buffer, format, entry, hb, hf, hentry, hin⟩ :=
    bind_content_entries program parse indexed content 0 nv n calls hbind tuple ht
  refine ⟨buffer, format, entry, hb, hf, hentry, ?_, ?_⟩
  · rw [hgl]
    exact infix_append_left_of hin
  · intro j name attrib hj hattr r hr
    have := bind_attributes_spec program (parse format).info hrows tuple.attributes 0
      (parse format).nodes entry (hpad format) hentry j name attrib hj hattr r hr
    rw [int32_eq_self (hloc name attrib hattr r hr)] at this
    simpa only [pointer_offset, zero_add] using this

/-- The second entry of the example content, `4x2f` bound to `in_offset`: the pointer of its
row is at location 1 with stride 12 and offset 4, past the padding. -/
theorem vertex_array_binding_offsets_witness :
    ∃ entry, bind_attributes demo_program (demo_parse "4x2f").info [.Unicode "in_offset"] 0
        (demo_parse "4x2f").nodes = .ok entry ∧
      [GLCall.VertexAttribPointer false 1 2 5126 12 4, .VertexAttribDivisor 1 0,
        .EnableVertexAttribArray 1] <:+: entry := by
  have hres : (MGLContext_vertex_array ⟨0, 0⟩ demo_program demo_parse demo_content .None
      9).result = .ok ⟨demo_program, .None, 9, 80, 0⟩ := by rfl
  have hattr : ∀ name attrib, demo_program.attributes name = some attrib →
      attrib = ⟨0, 3, 1, 'f', 5126, 1, 3, 12, false⟩ ∨
      attrib = ⟨1, 2, 1, 'f', 5126, 1, 2, 8, false⟩ := by
    intro name attrib h
    simp only [demo_program] at h
    split_ifs at h
    · exact Or.inl (Option.some.inj h).symm
    · exact Or.inr (Option.some.inj h).symm
  obtain ⟨buffer, format, entry, _, hf, hentry, _, hrow⟩ :=
    vertex_array_binding_offsets ⟨0, 0⟩ demo_program demo_parse demo_content .None 9 _ hres
      (by
        intro name attrib h
        rcases hattr name attrib h with rfl | rfl <;> decide)
      (by
        intro name attrib h r hr
        rcases hattr name attrib h with rfl | rfl <;>
          (simp only at hr; unfold isInt32; simp only; omega))
      (by
        intro format n hn hx
        simp only [demo_parse] at hn
        split_ifs at hn <;>
          simp only [List.mem_cons, List.mem_singleton, List.not_mem_nil, or_false] at hn
        all_goals (rcases hn with rfl | rfl <;> decide))
      ⟨.Buffer ⟨12, 960, false, 0⟩, .Unicode "4x2f", [.Unicode "in_offset"]⟩
      (by simp [demo_content])
  simp only [PyObject.Unicode.injEq] at hf
  subst hf
  refine ⟨entry, hentry, ?_⟩
  have := hrow 0 "in_offset" ⟨1, 2, 1, 'f', 5126, 1, 2, 8, false⟩ rfl rfl 0 (by decide)
  exact this

/-! ## copy_buffer: the range of the copy -/

/-- C22 (the code at the failing input): with `size = -1` and `read_offset = 20` on a source of
10 bytes the call passes both tests and issues `gl.CopyBufferSubData` with the size -10 from
the offset 20: the size is negative and the read offset lies past the end of the source. -/
theorem copy_buffer_issues_negative_range :
    GLCall.CopyBufferSubData .GL_COPY_READ_BUFFER .GL_COPY_WRITE_BUFFER 20 0 (-10) ∈
      (MGLContext_copy_buffer (MGLBuffer.mk 1 10 false 0) (MGLBuffer.mk 2 10 false 0)
        (-1) 20 0).gl ∧
    ¬ ((0 : Int) ≤ -10) ∧ ¬ ((20 : Int) ≤ (MGLBuffer.mk 2 10 false 0).size) := by
  decide

end MGL
